import Mathlib

/-!
Shallow embedding of `steampy/login.py` (class `LoginExecutor`).

The HTTP transport, the one-time-code generator (`steampy.guard`), the email
callback, the save callback and the server are external collaborators; they
are modelled by an explicit environment `Env` supplying the successive
responses and codes.  The session cookie jar is threaded as explicit state,
and every observable side effect (network POST, callback invocation,
one-time-code generation, explicit cookie set) is recorded in a trace of
`Action`s.  Python exceptions are modelled with `Except LoginError`.
-/

namespace Steampy

/-- A cookie in the `requests` session jar: name, value, domain
(`session.cookies.set(k, v)` without a domain stores domain `""`). -/
structure Cookie where
  name : String
  value : String
  domain : String
deriving DecidableEq, Repr

/-- `session.cookies.set(...)`: replaces any cookie with the same name and
domain, then stores the new one. -/
def cookieSet (jar : List Cookie) (c : Cookie) : List Cookie :=
  (jar.filter fun x => !(x.name = c.name && x.domain = c.domain)) ++ [c]

/-- `session.cookies.get_dict()[name]`: flattening the jar to a name → value
dict, a later cookie with the same name overwrites an earlier one, so the
lookup returns the value of the last cookie in the jar with that name
(`none` models a `KeyError`). -/
def getDictLookup (jar : List Cookie) (name : String) : Option String :=
  (jar.reverse.find? fun c => c.name = name).map (·.value)

/-- The value of the (most recently set) cookie with the given name scoped to
the given domain, if any. -/
def cookieValue (jar : List Cookie) (name domain : String) : Option String :=
  (jar.reverse.find? fun c => c.name = name && c.domain = domain).map (·.value)

/-- JSON body returned by `POST /login/getrsakey/`; each field is `none` when
the key is absent from the response dict. -/
structure KeyResponse where
  publickey_mod : Option String
  publickey_exp : Option String
  timestamp : Option String
deriving DecidableEq, Repr

/-- `rsa.PublicKey(n, e)`: modulus and public exponent. -/
structure PublicKey where
  n : Nat
  e : Nat
deriving DecidableEq, Repr

/-- The dict returned by `_fetch_rsa_params`:
`{'rsa_key': rsa.PublicKey(mod, exp), 'rsa_timestamp': timestamp}`. -/
structure RsaParams where
  rsa_key : PublicKey
  rsa_timestamp : String
deriving DecidableEq, Repr

/-- Numeric value of one hex digit, as accepted by Python `int(_, 16)`. -/
def hexDigit (c : Char) : Option Nat :=
  if '0' ≤ c ∧ c ≤ '9' then some (c.toNat - '0'.toNat)
  else if 'a' ≤ c ∧ c ≤ 'f' then some (c.toNat - 'a'.toNat + 10)
  else if 'A' ≤ c ∧ c ≤ 'F' then some (c.toNat - 'A'.toNat + 10)
  else none

/-- Python `int(s, 16)` on a plain hex-digit string; `none` models the
`ValueError` raised on a malformed string. -/
def hexToNat (s : String) : Option Nat :=
  if s.isEmpty then none
  else
    s.toList.foldl
      (fun acc c =>
        match acc, hexDigit c with
        | some a, some d => some (a * 16 + d)
        | _, _ => none)
      (some 0)

/-- The exceptions that can escape `LoginExecutor.login`. -/
inductive LoginError where
  /-- `ValueError('Could not obtain rsa-key')` — the spec's KeyRetrievalError. -/
  | keyRetrieval
  /-- An uncaught `ValueError` from `int(_, 16)` on a malformed hex field. -/
  | valueError
  /-- `CaptchaRequired('Captcha required')`. -/
  | captchaRequired
  /-- `InvalidCredentials(message)` — carries the server's `message` field. -/
  | invalidCredentials (msg : String)
  /-- An uncaught `KeyError` on the named dict key. -/
  | keyError (field : String)
  /-- `Exception('Cannot perform redirects after login, no parameters fetched')`
  — the spec's RedirectError. -/
  | redirectError
deriving DecidableEq, Repr

/-- The body of `_fetch_rsa_params`'s `try` block: `key_response['publickey_mod']`
(KeyError if absent), `int(_, 16)` (uncaught ValueError if malformed), then
likewise for `publickey_exp`, then `key_response['timestamp']`. -/
def parseKeyResponse (k : KeyResponse) : Except LoginError RsaParams :=
  match k.publickey_mod with
  | none => .error (.keyError "publickey_mod")
  | some ms =>
    match hexToNat ms with
    | none => .error .valueError
    | some rsa_mod =>
      match k.publickey_exp with
      | none => .error (.keyError "publickey_exp")
      | some es =>
        match hexToNat es with
        | none => .error .valueError
        | some rsa_exp =>
          match k.timestamp with
          | none => .error (.keyError "timestamp")
          | some ts => .ok ⟨⟨rsa_mod, rsa_exp⟩, ts⟩

/-- Whether a key response triggers the retry path of `_fetch_rsa_params`,
i.e. raises a `KeyError` (a required field is absent). -/
def retriesOn (k : KeyResponse) : Bool :=
  match parseKeyResponse k with
  | .error (.keyError _) => true
  | _ => false

/-- `s.encode('utf-8')` as a list of byte values. -/
def utf8Encode (s : String) : List Nat :=
  s.toUTF8.toList.map (·.toNat)

/-- Big-endian octet string to integer (RFC 8017 OS2IP). -/
def os2ip (bs : List Nat) : Nat :=
  bs.foldl (fun a b => a * 256 + b) 0

/-- Integer to big-endian octet string of length `k` (RFC 8017 I2OSP). -/
def i2osp : Nat → Nat → List Nat
  | _, 0 => []
  | x, k + 1 => i2osp (x / 256) k ++ [x % 256]

/-- Number of base-256 digits of `n` (`rsa.common.byte_size` up to the
degenerate zero case). -/
def byteLength : Nat → Nat
  | 0 => 0
  | n + 1 => byteLength ((n + 1) / 256) + 1
decreasing_by exact Nat.div_lt_self (Nat.succ_pos n) (by norm_num)

/-- Modelled from the spec: the external `rsa` library's `rsa.encrypt`
(PKCS#1 v1.5 encryption, §4.2 "RSA public-key encryption (PKCS#1 v1.5-style
padding)").  The random nonzero padding bytes `ps` are an explicit input:
the encryption block is `00 02 ‖ ps ‖ 00 ‖ msg`, interpreted as an integer,
raised to the public exponent modulo the modulus, and written back as an
octet string the length of the modulus. -/
def rsaEncrypt (msg : List Nat) (key : PublicKey) (ps : List Nat) : List Nat :=
  let eb := 0 :: 2 :: ps ++ 0 :: msg
  i2osp (os2ip eb ^ key.e % key.n) (byteLength key.n)

/-- The base64 alphabet. -/
def b64chars : List Char :=
  "ABCDEFGHIJKLMNOPQRSTUVWXYZabcdefghijklmnopqrstuvwxyz0123456789+/".toList

/-- The base64 character with the given 6-bit index. -/
def b64char (n : Nat) : Char :=
  b64chars.getD n 'A'

/-- `base64.b64encode` on a list of byte values (the result, Python `bytes`,
is modelled as a string). -/
def b64encode : List Nat → String
  | [] => ""
  | [a] =>
    String.mk [b64char (a / 4), b64char (a % 4 * 16), '=', '=']
  | [a, b] =>
    String.mk [b64char (a / 4), b64char (a % 4 * 16 + b / 16),
      b64char (b % 16 * 4), '=']
  | a :: b :: c :: rest =>
    String.mk [b64char (a / 4), b64char (a % 4 * 16 + b / 16),
      b64char (b % 16 * 4 + c / 64), b64char (c % 64)] ++ b64encode rest

/-- `_encrypt_password`:
`base64.b64encode(rsa.encrypt(self.password.encode('utf-8'), rsa_params['rsa_key']))`,
with the library's random padding bytes `ps` made explicit. -/
def encrypt_password (password : String) (rsa_params : RsaParams) (ps : List Nat) : String :=
  b64encode (rsaEncrypt (utf8Encode password) rsa_params.rsa_key ps)

/-- Written from the spec's words (§8): "base64 of an RSA encryption of the
exact password bytes using the fetched modulus/exponent" with PKCS#1 v1.5
padding — the block `00 02 ‖ padding ‖ 00 ‖ UTF-8(password)` encrypted with
modular exponentiation under the fetched modulus and exponent, then
base64-encoded. -/
def specEncryptedPassword (password : String) (modulus exponent : Nat) (ps : List Nat) : String :=
  b64encode (i2osp
    (os2ip (0 :: 2 :: ps ++ 0 :: utf8Encode password) ^ exponent % modulus)
    (byteLength modulus))

/-- The opaque `transfer_parameters` map. -/
abbrev TransferParams := List (String × String)

/-- The form data built by `_prepare_login_request_data`.  The source dict
literal assigns `loginfriendlyname` twice (`'krystal'`, then `''`); in a
Python dict literal the second value wins, so the field here is the
effective value. -/
structure RequestData where
  password : String
  username : String
  twofactorcode : String
  emailauth : String
  loginfriendlyname : String
  captchagid : String
  captcha_text : String
  emailsteamid : String
  rsatimestamp : String
  remember_login : String
  donotcache : String
deriving DecidableEq, Repr

/-- Parsed JSON body of a `POST /login/dologin` response.  `success`,
`requires_twofactor` and `emailauth_needed` are accessed with `[...]` and
modelled as present; `captcha_needed` holds the value of
`.get('captcha_needed', False)` with the default already applied; `message`,
`transfer_parameters` and `transfer_urls` are `none` when the key is absent
from the dict. -/
structure LoginJson where
  success : Bool
  requires_twofactor : Bool
  emailauth_needed : Bool
  captcha_needed : Bool
  message : Option String
  transfer_parameters : Option TransferParams
  transfer_urls : Option (List String)
deriving DecidableEq, Repr

/-- One observable side effect of the login flow. -/
inductive Action where
  /-- `session.post(STORE_URL + '/login/getrsakey/', data={'username': ...})`. -/
  | postKey (username : String)
  /-- `session.post(STORE_URL + '/login/dologin', data=request_data)`. -/
  | postLogin (data : RequestData)
  /-- `session.post(url, parameters)` in `_perform_redirects`. -/
  | postTransfer (url : String) (parameters : TransferParams)
  /-- One invocation of `guard.generate_one_time_code(shared_secret)`. -/
  | genOneTimeCode
  /-- One invocation of `self.email_callback()`. -/
  | emailCallback
  /-- One invocation of `self.saveCallback(transfer_parameters)`. -/
  | saveCallback (parameters : TransferParams)
  /-- One explicit `session.cookies.set(...)`. -/
  | setCookie (c : Cookie)
deriving DecidableEq, Repr

/-- The constructor arguments of `LoginExecutor` that are plain data:
credentials, shared secret, the pre-auth `steamAuth` cookie dict, and
whether `callable(self.saveCallback)` holds. -/
structure Executor where
  username : String
  password : String
  shared_secret : String
  steamAuth : List (String × String)
  hasSaveCallback : Bool

/-- The environment: server responses and collaborator outputs, indexed by
how many times the corresponding interaction has already happened.
`serverCookies i` is the list of cookies the `i`-th network call of the
attempt sets in the session jar; `padding i` is the random PKCS#1 v1.5
padding the rsa library draws for the `i`-th encryption; `nowMs i` is
`int(time.time() * 1000)` at the `i`-th login POST. -/
structure Env where
  keyResponses : Nat → KeyResponse
  loginResponses : Nat → LoginJson
  oneTimeCode : String → Nat → String
  emailCodes : Nat → String
  serverCookies : Nat → List Cookie
  padding : Nat → List Nat
  nowMs : Nat → Nat

/-- Mutable state threaded through one `login()` call: the session cookie
jar, the `one_time_code` and `email_auth` fields (both `''` initially), and
counters for how many of each environment stream have been consumed. -/
structure LoginState where
  jar : List Cookie
  one_time_code : String
  email_auth : String
  keyIdx : Nat
  loginIdx : Nat
  codeIdx : Nat
  emailIdx : Nat
  netIdx : Nat
deriving Repr

/-- Effect of one network round-trip on the session: the server may set
cookies in the jar. -/
def applyNet (env : Env) (s : LoginState) : LoginState :=
  { s with jar := (env.serverCookies s.netIdx).foldl cookieSet s.jar,
           netIdx := s.netIdx + 1 }

/-- `_fetch_rsa_params(current_number_of_repetitions)`, recursion expressed
structurally on `remaining = maximal_number_of_repetitions - current`: each
call POSTs the key endpoint; on a `KeyError` it retries while
`current < maximal_number_of_repetitions` (i.e. `remaining > 0`), otherwise
raises `ValueError('Could not obtain rsa-key')`; any other exception
(the uncaught `ValueError` of `int(_, 16)`) propagates. -/
def fetch_rsa_aux (ex : Executor) (env : Env) :
    Nat → LoginState → Except LoginError (RsaParams × LoginState) × List Action
  | 0, s =>
    let k := env.keyResponses s.keyIdx
    let s' := applyNet env { s with keyIdx := s.keyIdx + 1 }
    match parseKeyResponse k with
    | .ok p => (.ok (p, s'), [.postKey ex.username])
    | .error (.keyError _) => (.error .keyRetrieval, [.postKey ex.username])
    | .error e => (.error e, [.postKey ex.username])
  | rem + 1, s =>
    let k := env.keyResponses s.keyIdx
    let s' := applyNet env { s with keyIdx := s.keyIdx + 1 }
    match parseKeyResponse k with
    | .ok p => (.ok (p, s'), [.postKey ex.username])
    | .error (.keyError _) =>
      let r := fetch_rsa_aux ex env rem s'
      (r.1, .postKey ex.username :: r.2)
    | .error e => (.error e, [.postKey ex.username])

/-- `_fetch_rsa_params()` as called, with `current_number_of_repetitions = 0`
and `maximal_number_of_repetitions = 5`. -/
def fetch_rsa_params (ex : Executor) (env : Env) (s : LoginState) :
    Except LoginError (RsaParams × LoginState) × List Action :=
  fetch_rsa_aux ex env 5 s

/-- `_prepare_login_request_data(encrypted_password, rsa_timestamp)`. -/
def prepare_login_request_data (ex : Executor) (encrypted_password : String)
    (rsa_timestamp : String) (one_time_code email_auth : String) (nowMs : Nat) :
    RequestData :=
  { password := encrypted_password
    username := ex.username
    twofactorcode := one_time_code
    emailauth := email_auth
    loginfriendlyname := ""
    captchagid := "-1"
    captcha_text := ""
    emailsteamid := ""
    rsatimestamp := rsa_timestamp
    remember_login := "false"
    donotcache := toString nowMs }

/-- `_send_login_request`: fetch RSA params, encrypt the password, build the
form data, POST `/login/dologin` and return its parsed JSON body. -/
def send_login_request (ex : Executor) (env : Env) (s : LoginState) :
    Except LoginError (LoginJson × LoginState) × List Action :=
  match fetch_rsa_params ex env s with
  | (.error e, acts) => (.error e, acts)
  | (.ok (rsa_params, s₁), acts) =>
    let encrypted_password := encrypt_password ex.password rsa_params (env.padding s₁.loginIdx)
    let request_data := prepare_login_request_data ex encrypted_password
      rsa_params.rsa_timestamp s₁.one_time_code s₁.email_auth (env.nowMs s₁.loginIdx)
    let resp := env.loginResponses s₁.loginIdx
    let s₂ := applyNet env { s₁ with loginIdx := s₁.loginIdx + 1 }
    (.ok (resp, s₂), acts ++ [.postLogin request_data])

/-- `_check_for_captcha`: raise `CaptchaRequired` when
`login_response.json().get('captcha_needed', False)` is truthy. -/
def check_for_captcha (r : LoginJson) : Except LoginError Unit :=
  if r.captcha_needed then .error .captchaRequired else .ok ()

/-- `_enter_steam_guard_if_necessary`: on a successful response return it
unchanged; otherwise, if two-factor is required, generate a one-time code
from the shared secret and resubmit once; else if email auth is needed,
obtain a code from the email callback and resubmit once; otherwise return
the response unchanged.  The resubmitted response is returned as is. -/
def enter_steam_guard_if_necessary (ex : Executor) (env : Env)
    (r : LoginJson) (s : LoginState) :
    Except LoginError (LoginJson × LoginState) × List Action :=
  if r.success then (.ok (r, s), [])
  else if r.requires_twofactor then
    let s₁ := { s with one_time_code := env.oneTimeCode ex.shared_secret s.codeIdx,
                       codeIdx := s.codeIdx + 1 }
    let r₁ := send_login_request ex env s₁
    (r₁.1, .genOneTimeCode :: r₁.2)
  else if r.emailauth_needed then
    let s₁ := { s with email_auth := env.emailCodes s.emailIdx,
                       emailIdx := s.emailIdx + 1 }
    let r₁ := send_login_request ex env s₁
    (r₁.1, .emailCallback :: r₁.2)
  else (.ok (r, s), [])

/-- `_assert_valid_credentials`: on `success` false, raise
`InvalidCredentials(login_response.json()['message'])` (the `['message']`
lookup itself raises `KeyError` when the key is absent). -/
def assert_valid_credentials (r : LoginJson) : Except LoginError Unit :=
  if r.success then .ok ()
  else
    match r.message with
    | some m => .error (.invalidCredentials m)
    | none => .error (.keyError "message")

/-- `_save_steam_auth`: when `callable(self.saveCallback)`, call it with
`login_response.json()['transfer_parameters']` (a `KeyError` when absent). -/
def save_steam_auth (ex : Executor) (r : LoginJson) :
    Except LoginError Unit × List Action :=
  if ex.hasSaveCallback then
    match r.transfer_parameters with
    | some ps => (.ok (), [.saveCallback ps])
    | none => (.error (.keyError "transfer_parameters"), [])
  else (.ok (), [])

/-- The `for url in response_dict['transfer_urls']` loop of
`_perform_redirects`: one `session.post(url, parameters)` per URL, in
order. -/
def post_transfers (env : Env) (parameters : TransferParams) :
    List String → LoginState → LoginState × List Action
  | [], s => (s, [])
  | url :: rest, s =>
    let s₁ := applyNet env s
    let r := post_transfers env parameters rest s₁
    (r.1, .postTransfer url parameters :: r.2)

/-- `_perform_redirects(response_dict)`: `response_dict.get('transfer_parameters')`,
failing with the redirect `Exception` when `None`; then one POST of the
parameters per URL of `response_dict['transfer_urls']` (whose lookup raises
`KeyError` when absent). -/
def perform_redirects (env : Env) (r : LoginJson) (s : LoginState) :
    Except LoginError LoginState × List Action :=
  match r.transfer_parameters with
  | none => (.error .redirectError, [])
  | some parameters =>
    match r.transfer_urls with
    | none => (.error (.keyError "transfer_urls"), [])
    | some urls =>
      let res := post_transfers env parameters urls s
      (.ok res.1, res.2)

/-- `COMMUNITY_URL = "https://steamcommunity.com"`. -/
def COMMUNITY_URL : String := "https://steamcommunity.com"

/-- `STORE_URL = 'https://store.steampowered.com'`. -/
def STORE_URL : String := "https://store.steampowered.com"

/-- `_create_session_id_cookie(sessionid, domain)`. -/
def create_session_id_cookie (sessionid domain : String) : Cookie :=
  { name := "sessionid", value := sessionid, domain := domain }

/-- `set_sessionid_cookies`: read `session.cookies.get_dict()['sessionid']`
(`KeyError` when absent) and set a `sessionid` cookie with that value on
`COMMUNITY_URL[8:]` and on `STORE_URL[8:]`. -/
def set_sessionid_cookies (s : LoginState) :
    Except LoginError LoginState × List Action :=
  match getDictLookup s.jar "sessionid" with
  | none => (.error (.keyError "sessionid"), [])
  | some sessionid =>
    let community_cookie := create_session_id_cookie sessionid (COMMUNITY_URL.drop 8)
    let store_cookie := create_session_id_cookie sessionid (STORE_URL.drop 8)
    (.ok { s with jar := cookieSet (cookieSet s.jar community_cookie) store_cookie },
     [.setCookie community_cookie, .setCookie store_cookie])

/-- `_set_steamauth_cookies`: `session.cookies.set(k, v)` for each entry of
the `steamAuth` dict (no domain, so domain `""`). -/
def set_steamauth_cookies (ex : Executor) (s : LoginState) : LoginState :=
  let jar₁ := ex.steamAuth.foldl
    (fun j kv => cookieSet j { name := kv.1, value := kv.2, domain := "" }) s.jar
  { s with jar := jar₁ }

/-- The initial `LoginState` of a `login()` call on a session whose jar is
`jar₀`: `one_time_code` and `email_auth` are `''` (set in `__init__`) and no
environment stream has been consumed yet. -/
def initState (jar₀ : List Cookie) : LoginState :=
  { jar := jar₀, one_time_code := "", email_auth := "",
    keyIdx := 0, loginIdx := 0, codeIdx := 0, emailIdx := 0, netIdx := 0 }

/-- The tail of `LoginExecutor.login()` after challenge resolution, on the
final login response `r₂`: `_assert_valid_credentials`, `_save_steam_auth`,
`_perform_redirects`, `set_sessionid_cookies`, `return self.session`
(modelled by its final jar). -/
def finish_login (ex : Executor) (env : Env) (r₂ : LoginJson) (s₂ : LoginState) :
    Except LoginError (List Cookie) × List Action :=
  match assert_valid_credentials r₂ with
  | .error e => (.error e, [])
  | .ok _ =>
    match save_steam_auth ex r₂ with
    | (.error e, acts₃) => (.error e, acts₃)
    | (.ok _, acts₃) =>
      match perform_redirects env r₂ s₂ with
      | (.error e, acts₄) => (.error e, acts₃ ++ acts₄)
      | (.ok s₃, acts₄) =>
        match set_sessionid_cookies s₃ with
        | (.error e, acts₅) => (.error e, acts₃ ++ acts₄ ++ acts₅)
        | (.ok s₄, acts₅) => (.ok s₄.jar, acts₃ ++ acts₄ ++ acts₅)

/-- `LoginExecutor.login()`: seed the `steamAuth` cookies, send the login
request, check for captcha, enter Steam Guard if necessary, then finish with
credential validation, steam-auth saving, redirects and session-id cookie
binding (`finish_login`).  The second component is the trace of observable
actions up to the point of return or exception. -/
def login (ex : Executor) (env : Env) (jar₀ : List Cookie) :
    Except LoginError (List Cookie) × List Action :=
  let s₀ := set_steamauth_cookies ex (initState jar₀)
  match send_login_request ex env s₀ with
  | (.error e, acts₁) => (.error e, acts₁)
  | (.ok (r₁, s₁), acts₁) =>
    match check_for_captcha r₁ with
    | .error e => (.error e, acts₁)
    | .ok _ =>
      match enter_steam_guard_if_necessary ex env r₁ s₁ with
      | (.error e, acts₂) => (.error e, acts₁ ++ acts₂)
      | (.ok (r₂, s₂), acts₂) =>
        let t := finish_login ex env r₂ s₂
        (t.1, acts₁ ++ acts₂ ++ t.2)

/-- Is this action a POST to the RSA-key endpoint? -/
def isPostKey : Action → Bool
  | .postKey _ => true
  | _ => false

/-- Is this action a POST to `/login/dologin`? -/
def isPostLogin : Action → Bool
  | .postLogin _ => true
  | _ => false

/-- Is this action a redirect POST to a transfer URL? -/
def isPostTransfer : Action → Bool
  | .postTransfer _ _ => true
  | _ => false

/-- Is this action an invocation of the one-time-code generator? -/
def isGenCode : Action → Bool
  | .genOneTimeCode => true
  | _ => false

/-- Is this action an invocation of the email callback? -/
def isEmailCb : Action → Bool
  | .emailCallback => true
  | _ => false

/-- Number of POSTs to the RSA-key endpoint in a trace. -/
def countPostKey (tr : List Action) : Nat := tr.countP (isPostKey ·)

/-- Number of POSTs to `/login/dologin` in a trace. -/
def countPostLogin (tr : List Action) : Nat := tr.countP (isPostLogin ·)

/-- Number of redirect POSTs in a trace. -/
def countPostTransfer (tr : List Action) : Nat := tr.countP (isPostTransfer ·)

/-- Number of one-time-code generations in a trace. -/
def countGenCode (tr : List Action) : Nat := tr.countP (isGenCode ·)

/-- Number of email-callback invocations in a trace. -/
def countEmailCb (tr : List Action) : Nat := tr.countP (isEmailCb ·)

/-- The form bodies of the login POSTs of a trace, in order. -/
def postLoginDatas (tr : List Action) : List RequestData :=
  tr.filterMap fun a =>
    match a with
    | .postLogin d => some d
    | _ => none

/-- The redirect POSTs of a trace — (url, posted parameters) — in order. -/
def transferPosts (tr : List Action) : List (String × TransferParams) :=
  tr.filterMap fun a =>
    match a with
    | .postTransfer url ps => some (url, ps)
    | _ => none

/-- Did the computation return normally (no exception)? -/
def exceptIsOk {e a : Type} : Except e a → Bool
  | .ok _ => true
  | .error _ => false

/-- Results of modelled computations are comparable. -/
instance exceptDecEq {e a : Type} [DecidableEq e] [DecidableEq a] :
    DecidableEq (Except e a) := fun x y =>
  match x, y with
  | .ok u, .ok v =>
    if h : u = v then isTrue (h ▸ rfl) else isFalse (fun hc => h (Except.ok.inj hc))
  | .error u, .error v =>
    if h : u = v then isTrue (h ▸ rfl) else isFalse (fun hc => h (Except.error.inj hc))
  | .ok _, .error _ => isFalse (fun hc => Except.noConfusion hc)
  | .error _, .ok _ => isFalse (fun hc => Except.noConfusion hc)

/-- A key response with all three required fields present and well-formed
(modulus `0x10001`, exponent `0x1`). -/
def keyOk : KeyResponse :=
  { publickey_mod := some "10001", publickey_exp := some "1", timestamp := some "TS" }

/-- A key response with every required field absent. -/
def keyBad : KeyResponse :=
  { publickey_mod := none, publickey_exp := none, timestamp := none }

/-- A fully successful login response with transfer data. -/
def respOk : LoginJson :=
  { success := true, requires_twofactor := false, emailauth_needed := false,
    captcha_needed := false, message := none,
    transfer_parameters := some [("steamid", "42")],
    transfer_urls := some ["u1", "u2"] }

/-- A failed response demanding a two-factor code. -/
def respTwoFactor : LoginJson :=
  { success := false, requires_twofactor := true, emailauth_needed := false,
    captcha_needed := false, message := some "2fa-again",
    transfer_parameters := none, transfer_urls := none }

/-- A failed response demanding an email-auth code. -/
def respEmail : LoginJson :=
  { success := false, requires_twofactor := false, emailauth_needed := true,
    captcha_needed := false, message := some "email-again",
    transfer_parameters := none, transfer_urls := none }

/-- A plainly failed response (no challenge flags). -/
def respFail : LoginJson :=
  { success := false, requires_twofactor := false, emailauth_needed := false,
    captcha_needed := false, message := some "bad pw",
    transfer_parameters := none, transfer_urls := none }

/-- An executor with no callable save callback and a pre-auth `sessionid`. -/
def exBase : Executor :=
  { username := "u", password := "p", shared_secret := "ss",
    steamAuth := [("sessionid", "S")], hasSaveCallback := false }

/-- Same as `exBase` with a callable save callback. -/
def exSave : Executor := { exBase with hasSaveCallback := true }

/-- A deterministic happy-path environment: key fetches always succeed, every
login response is `respOk`, the server sets no cookies. -/
def envBase : Env :=
  { keyResponses := fun _ => keyOk
    loginResponses := fun _ => respOk
    oneTimeCode := fun _ i => "OTC" ++ toString i
    emailCodes := fun i => "EC" ++ toString i
    serverCookies := fun _ => []
    padding := fun _ => []
    nowMs := fun _ => 0 }

/-- Environment whose first two login responses both demand two-factor and
fail, while the third would succeed. -/
def envC1 : Env :=
  { envBase with loginResponses := fun i => if i < 2 then respTwoFactor else respOk }

/-- Environment whose first response demands two-factor and whose resubmitted
response succeeds but signals `captcha_needed=true`. -/
def envC2 : Env :=
  { envBase with loginResponses := fun i =>
      if i = 0 then respTwoFactor else { respOk with captcha_needed := true } }

/-- Environment whose every key response lacks all required fields. -/
def envKeyFail : Env := { envBase with keyResponses := fun _ => keyBad }

/-- Environment whose login response succeeds but carries no
`transfer_parameters` (and no `transfer_urls`). -/
def envNoParams : Env :=
  { envBase with loginResponses := fun _ =>
      { respOk with transfer_parameters := none, transfer_urls := none } }

/-- Environment whose first login response demands two-factor and whose
resubmitted response succeeds. -/
def envTwoFactorOnce : Env :=
  { envBase with loginResponses := fun i => if i = 0 then respTwoFactor else respOk }

/-- Environment whose first login response signals a captcha. -/
def envCaptcha : Env :=
  { envBase with loginResponses := fun _ => { respOk with captcha_needed := true } }

/-- Environment whose first two login responses both demand email auth and
fail, while the third would succeed. -/
def envC8 : Env :=
  { envBase with loginResponses := fun i => if i < 2 then respEmail else respOk }

/-- Environment whose first login response demands email auth and whose
resubmitted response succeeds. -/
def envEmailOnce : Env :=
  { envBase with loginResponses := fun i => if i = 0 then respEmail else respOk }

/-- Environment whose login response fails with no challenge flags. -/
def envFail : Env := { envBase with loginResponses := fun _ => respFail }

@[simp] lemma initState_jar (j : List Cookie) : (initState j).jar = j := rfl

@[simp] lemma initState_keyIdx (j : List Cookie) : (initState j).keyIdx = 0 := rfl

@[simp] lemma initState_loginIdx (j : List Cookie) : (initState j).loginIdx = 0 := rfl

@[simp] lemma initState_codeIdx (j : List Cookie) : (initState j).codeIdx = 0 := rfl

@[simp] lemma initState_emailIdx (j : List Cookie) : (initState j).emailIdx = 0 := rfl

@[simp] lemma initState_otc (j : List Cookie) : (initState j).one_time_code = "" := rfl

@[simp] lemma initState_ea (j : List Cookie) : (initState j).email_auth = "" := rfl

@[simp] lemma applyNet_keyIdx (env : Env) (s : LoginState) :
    (applyNet env s).keyIdx = s.keyIdx := rfl

@[simp] lemma applyNet_loginIdx (env : Env) (s : LoginState) :
    (applyNet env s).loginIdx = s.loginIdx := rfl

@[simp] lemma applyNet_codeIdx (env : Env) (s : LoginState) :
    (applyNet env s).codeIdx = s.codeIdx := rfl

@[simp] lemma applyNet_emailIdx (env : Env) (s : LoginState) :
    (applyNet env s).emailIdx = s.emailIdx := rfl

@[simp] lemma applyNet_otc (env : Env) (s : LoginState) :
    (applyNet env s).one_time_code = s.one_time_code := rfl

@[simp] lemma applyNet_ea (env : Env) (s : LoginState) :
    (applyNet env s).email_auth = s.email_auth := rfl

@[simp] lemma set_steamauth_keyIdx (ex : Executor) (s : LoginState) :
    (set_steamauth_cookies ex s).keyIdx = s.keyIdx := rfl

@[simp] lemma set_steamauth_loginIdx (ex : Executor) (s : LoginState) :
    (set_steamauth_cookies ex s).loginIdx = s.loginIdx := rfl

@[simp] lemma set_steamauth_codeIdx (ex : Executor) (s : LoginState) :
    (set_steamauth_cookies ex s).codeIdx = s.codeIdx := rfl

@[simp] lemma set_steamauth_emailIdx (ex : Executor) (s : LoginState) :
    (set_steamauth_cookies ex s).emailIdx = s.emailIdx := rfl

@[simp] lemma set_steamauth_otc (ex : Executor) (s : LoginState) :
    (set_steamauth_cookies ex s).one_time_code = s.one_time_code := rfl

@[simp] lemma set_steamauth_ea (ex : Executor) (s : LoginState) :
    (set_steamauth_cookies ex s).email_auth = s.email_auth := rfl

/-- A successful parse of the key response at the current index makes
`fetch_rsa_aux` return it after a single key POST, whatever the remaining
retry budget. -/
lemma fetch_aux_ok (ex : Executor) (env : Env) (rem : Nat) (s : LoginState)
    (p : RsaParams) (h : parseKeyResponse (env.keyResponses s.keyIdx) = .ok p) :
    fetch_rsa_aux ex env rem s =
      (.ok (p, applyNet env { s with keyIdx := s.keyIdx + 1 }), [.postKey ex.username]) := by
  cases rem <;> simp [fetch_rsa_aux, h]

/-- Under a successful key parse, `_send_login_request` does one key POST and
one login POST carrying the encrypted password, the current one-time code and
the current email-auth code, and returns the next login response. -/
lemma send_login_request_ok (ex : Executor) (env : Env) (s : LoginState)
    (p : RsaParams) (h : parseKeyResponse (env.keyResponses s.keyIdx) = .ok p) :
    send_login_request ex env s =
      (.ok (env.loginResponses s.loginIdx,
        applyNet env
          { applyNet env { s with keyIdx := s.keyIdx + 1 } with loginIdx := s.loginIdx + 1 }),
       [.postKey ex.username,
        .postLogin (prepare_login_request_data ex
          (encrypt_password ex.password p (env.padding s.loginIdx))
          p.rsa_timestamp s.one_time_code s.email_auth (env.nowMs s.loginIdx))]) := by
  simp [send_login_request, fetch_rsa_params, fetch_aux_ok ex env 5 s p h]

/-- Every action of a `fetch_rsa_aux` trace is a key POST. -/
lemma fetch_aux_trace_postKey (ex : Executor) (env : Env) :
    ∀ (rem : Nat) (s : LoginState) (a : Action),
      a ∈ (fetch_rsa_aux ex env rem s).2 → a = .postKey ex.username := by
  intro rem
  induction rem with
  | zero =>
    intro s a ha
    cases hp : parseKeyResponse (env.keyResponses s.keyIdx) with
    | ok p => simp [fetch_rsa_aux, hp] at ha; exact ha
    | error e => cases e <;> simp [fetch_rsa_aux, hp] at ha <;> exact ha
  | succ rem ih =>
    intro s a ha
    cases hp : parseKeyResponse (env.keyResponses s.keyIdx) with
    | ok p => simp [fetch_rsa_aux, hp] at ha; exact ha
    | error e =>
      cases e with
      | keyError f =>
        simp [fetch_rsa_aux, hp] at ha
        rcases ha with h | h
        · exact h
        · exact ih _ a h
      | keyRetrieval => simp [fetch_rsa_aux, hp] at ha; exact ha
      | valueError => simp [fetch_rsa_aux, hp] at ha; exact ha
      | captchaRequired => simp [fetch_rsa_aux, hp] at ha; exact ha
      | invalidCredentials m => simp [fetch_rsa_aux, hp] at ha; exact ha
      | redirectError => simp [fetch_rsa_aux, hp] at ha; exact ha

/-- An erroring `_fetch_rsa_params` makes `_send_login_request` fail with the
same exception and the same (key-POSTs-only) trace. -/
lemma send_login_request_error (ex : Executor) (env : Env) (s : LoginState)
    (e : LoginError) (acts : List Action)
    (h : fetch_rsa_params ex env s = (.error e, acts)) :
    send_login_request ex env s = (.error e, acts) := by
  simp [send_login_request, h]

/-- A `fetch_rsa_aux` trace contains no login POST, no transfer POST, no
one-time-code generation and no email-callback invocation. -/
lemma fetch_aux_counts (ex : Executor) (env : Env) (rem : Nat) (s : LoginState) :
    countPostLogin (fetch_rsa_aux ex env rem s).2 = 0
    ∧ countPostTransfer (fetch_rsa_aux ex env rem s).2 = 0
    ∧ countGenCode (fetch_rsa_aux ex env rem s).2 = 0
    ∧ countEmailCb (fetch_rsa_aux ex env rem s).2 = 0 := by
  refine ⟨?_, ?_, ?_, ?_⟩ <;>
    · simp only [countPostLogin, countPostTransfer, countGenCode, countEmailCb]
      rw [List.countP_eq_zero]
      intro a ha
      rw [fetch_aux_trace_postKey ex env rem s a ha]
      simp [isPostLogin, isPostTransfer, isGenCode, isEmailCb]

/-- A response on which the fetch retries is exactly one whose parse raises a
`KeyError`. -/
lemma retriesOn_true_iff (k : KeyResponse) :
    retriesOn k = true ↔ ∃ f, parseKeyResponse k = .error (.keyError f) := by
  unfold retriesOn
  cases hp : parseKeyResponse k with
  | ok p => simp
  | error e => cases e <;> simp

/-- If all `rem + 1` next key responses lack a required field, `fetch_rsa_aux`
raises the key-retrieval error after exactly `rem + 1` key POSTs. -/
lemma fetch_aux_all_fail (ex : Executor) (env : Env) :
    ∀ (rem : Nat) (s : LoginState),
      (∀ i, i ≤ rem → retriesOn (env.keyResponses (s.keyIdx + i)) = true) →
      fetch_rsa_aux ex env rem s =
        (.error .keyRetrieval, List.replicate (rem + 1) (.postKey ex.username)) := by
  intro rem
  induction rem with
  | zero =>
    intro s h
    obtain ⟨f, hf⟩ := (retriesOn_true_iff _).mp (by simpa using h 0 (le_refl 0))
    simp [fetch_rsa_aux, hf]
  | succ rem ih =>
    intro s h
    obtain ⟨f, hf⟩ := (retriesOn_true_iff _).mp (by simpa using h 0 (Nat.zero_le _))
    have hrest : ∀ i, i ≤ rem →
        retriesOn (env.keyResponses
          ((applyNet env { s with keyIdx := s.keyIdx + 1 }).keyIdx + i)) = true := by
      intro i hi
      have := h (i + 1) (by omega)
      simpa [Nat.add_assoc, Nat.add_comm 1 i] using this
    have := ih (applyNet env { s with keyIdx := s.keyIdx + 1 }) hrest
    simp [fetch_rsa_aux, hf, this, List.replicate_succ]

/-- If the first `j` key responses lack a required field and the `j`-th does
not, `fetch_rsa_aux` with budget `rem ≥ j` stops after exactly `j + 1` key
POSTs. -/
lemma fetch_aux_stops (ex : Executor) (env : Env) :
    ∀ (rem : Nat) (s : LoginState) (j : Nat), j ≤ rem →
      (∀ i, i < j → retriesOn (env.keyResponses (s.keyIdx + i)) = true) →
      retriesOn (env.keyResponses (s.keyIdx + j)) = false →
      countPostKey (fetch_rsa_aux ex env rem s).2 = j + 1 := by
  intro rem
  induction rem with
  | zero =>
    intro s j hj _ hstop
    have hj0 : j = 0 := Nat.le_zero.mp hj
    subst hj0
    cases hp : parseKeyResponse (env.keyResponses s.keyIdx) with
    | ok p => simp [fetch_rsa_aux, hp, countPostKey, isPostKey]
    | error e =>
      cases e with
      | keyError f =>
        have ht : retriesOn (env.keyResponses s.keyIdx) = true :=
          (retriesOn_true_iff _).mpr ⟨f, hp⟩
        simp [ht] at hstop
      | keyRetrieval => simp [fetch_rsa_aux, hp, countPostKey, isPostKey]
      | valueError => simp [fetch_rsa_aux, hp, countPostKey, isPostKey]
      | captchaRequired => simp [fetch_rsa_aux, hp, countPostKey, isPostKey]
      | invalidCredentials m => simp [fetch_rsa_aux, hp, countPostKey, isPostKey]
      | redirectError => simp [fetch_rsa_aux, hp, countPostKey, isPostKey]
  | succ rem ih =>
    intro s j hj hpre hstop
    cases j with
    | zero =>
      cases hp : parseKeyResponse (env.keyResponses s.keyIdx) with
      | ok p => simp [fetch_rsa_aux, hp, countPostKey, isPostKey]
      | error e =>
        cases e with
        | keyError f =>
          have ht : retriesOn (env.keyResponses s.keyIdx) = true :=
            (retriesOn_true_iff _).mpr ⟨f, hp⟩
          simp [ht] at hstop
        | keyRetrieval => simp [fetch_rsa_aux, hp, countPostKey, isPostKey]
        | valueError => simp [fetch_rsa_aux, hp, countPostKey, isPostKey]
        | captchaRequired => simp [fetch_rsa_aux, hp, countPostKey, isPostKey]
        | invalidCredentials m => simp [fetch_rsa_aux, hp, countPostKey, isPostKey]
        | redirectError => simp [fetch_rsa_aux, hp, countPostKey, isPostKey]
    | succ j =>
      have h0 := hpre 0 (Nat.succ_pos j)
      obtain ⟨f, hf⟩ := (retriesOn_true_iff _).mp (by simpa using h0)
      have hpre' : ∀ i, i < j →
          retriesOn (env.keyResponses
            ((applyNet env { s with keyIdx := s.keyIdx + 1 }).keyIdx + i)) = true := by
        intro i hi
        have := hpre (i + 1) (by omega)
        simpa [Nat.add_assoc, Nat.add_comm 1 i] using this
      have hstop' : retriesOn (env.keyResponses
          ((applyNet env { s with keyIdx := s.keyIdx + 1 }).keyIdx + j)) = false := by
        simpa [Nat.add_assoc, Nat.add_comm 1 j] using hstop
      have := ih (applyNet env { s with keyIdx := s.keyIdx + 1 }) j (by omega) hpre' hstop'
      simp [fetch_rsa_aux, hf, countPostKey, isPostKey, List.countP_cons] at this ⊢
      omega

/-- `fetch_rsa_aux` with budget `rem` makes at most `rem + 1` key POSTs. -/
lemma fetch_aux_count_le (ex : Executor) (env : Env) :
    ∀ (rem : Nat) (s : LoginState),
      countPostKey (fetch_rsa_aux ex env rem s).2 ≤ rem + 1 := by
  intro rem
  induction rem with
  | zero =>
    intro s
    cases hp : parseKeyResponse (env.keyResponses s.keyIdx) with
    | ok p => simp [fetch_rsa_aux, hp, countPostKey, isPostKey]
    | error e => cases e <;> simp [fetch_rsa_aux, hp, countPostKey, isPostKey]
  | succ rem ih =>
    intro s
    cases hp : parseKeyResponse (env.keyResponses s.keyIdx) with
    | ok p => simp [fetch_rsa_aux, hp, countPostKey, isPostKey]
    | error e =>
      cases e with
      | keyError f =>
        have := ih (applyNet env { s with keyIdx := s.keyIdx + 1 })
        simp [fetch_rsa_aux, hp, countPostKey, isPostKey, List.countP_cons] at this ⊢
        omega
      | keyRetrieval => simp [fetch_rsa_aux, hp, countPostKey, isPostKey]
      | valueError => simp [fetch_rsa_aux, hp, countPostKey, isPostKey]
      | captchaRequired => simp [fetch_rsa_aux, hp, countPostKey, isPostKey]
      | invalidCredentials m => simp [fetch_rsa_aux, hp, countPostKey, isPostKey]
      | redirectError => simp [fetch_rsa_aux, hp, countPostKey, isPostKey]

/-- `parseKeyResponse` only fails with a `KeyError` or the hex `ValueError`. -/
lemma parseKeyResponse_error_cases (k : KeyResponse) (e : LoginError)
    (h : parseKeyResponse k = .error e) :
    e = .valueError ∨ ∃ f, e = .keyError f := by
  unfold parseKeyResponse at h
  split at h
  · exact Or.inr ⟨_, (Except.error.inj h).symm⟩
  · split at h
    · exact Or.inl (Except.error.inj h).symm
    · split at h
      · exact Or.inr ⟨_, (Except.error.inj h).symm⟩
      · split at h
        · exact Or.inl (Except.error.inj h).symm
        · split at h
          · exact Or.inr ⟨_, (Except.error.inj h).symm⟩
          · exact absurd h (by simp)

/-- `fetch_rsa_aux` only fails with the key-retrieval error, a `KeyError`, or
the hex `ValueError`. -/
lemma fetch_aux_error_cases (ex : Executor) (env : Env) :
    ∀ (rem : Nat) (s : LoginState) (e : LoginError),
      (fetch_rsa_aux ex env rem s).1 = .error e →
      e = .keyRetrieval ∨ e = .valueError ∨ ∃ f, e = .keyError f := by
  intro rem
  induction rem with
  | zero =>
    intro s e h
    cases hp : parseKeyResponse (env.keyResponses s.keyIdx) with
    | ok p => simp [fetch_rsa_aux, hp] at h
    | error e' =>
      cases e' with
      | keyError f => simp [fetch_rsa_aux, hp] at h; subst h; simp
      | keyRetrieval => simp [fetch_rsa_aux, hp] at h; subst h; simp
      | valueError => simp [fetch_rsa_aux, hp] at h; subst h; simp
      | captchaRequired =>
        rcases parseKeyResponse_error_cases _ _ hp with h' | ⟨f, h'⟩ <;> simp_all
      | invalidCredentials m =>
        rcases parseKeyResponse_error_cases _ _ hp with h' | ⟨f, h'⟩ <;> simp_all
      | redirectError =>
        rcases parseKeyResponse_error_cases _ _ hp with h' | ⟨f, h'⟩ <;> simp_all
  | succ rem ih =>
    intro s e h
    cases hp : parseKeyResponse (env.keyResponses s.keyIdx) with
    | ok p => simp [fetch_rsa_aux, hp] at h
    | error e' =>
      cases e' with
      | keyError f =>
        simp [fetch_rsa_aux, hp] at h
        exact ih _ e h
      | keyRetrieval => simp [fetch_rsa_aux, hp] at h; subst h; simp
      | valueError => simp [fetch_rsa_aux, hp] at h; subst h; simp
      | captchaRequired =>
        rcases parseKeyResponse_error_cases _ _ hp with h' | ⟨f, h'⟩ <;> simp_all
      | invalidCredentials m =>
        rcases parseKeyResponse_error_cases _ _ hp with h' | ⟨f, h'⟩ <;> simp_all
      | redirectError =>
        rcases parseKeyResponse_error_cases _ _ hp with h' | ⟨f, h'⟩ <;> simp_all

/-- `_send_login_request` only fails with the key-retrieval error, a
`KeyError`, or the hex `ValueError` (all from the RSA fetch). -/
lemma send_error_cases (ex : Executor) (env : Env) (s : LoginState) (e : LoginError)
    (h : (send_login_request ex env s).1 = .error e) :
    e = .keyRetrieval ∨ e = .valueError ∨ ∃ f, e = .keyError f := by
  unfold send_login_request at h
  split at h
  · rename_i e' acts heq
    simp at h
    subst h
    exact fetch_aux_error_cases ex env 5 s e' (congrArg Prod.fst heq)
  · simp at h

/-- `_enter_steam_guard_if_necessary` only fails with an error of a nested
`_send_login_request`. -/
lemma guard_error_cases (ex : Executor) (env : Env) (r : LoginJson) (s : LoginState)
    (e : LoginError) (h : (enter_steam_guard_if_necessary ex env r s).1 = .error e) :
    e = .keyRetrieval ∨ e = .valueError ∨ ∃ f, e = .keyError f := by
  unfold enter_steam_guard_if_necessary at h
  split at h
  · simp at h
  · split at h
    · simp only at h
      exact send_error_cases ex env _ e h
    · split at h
      · simp only at h
        exact send_error_cases ex env _ e h
      · simp at h

/-- The redirect loop posts the parameters to each URL in order. -/
lemma post_transfers_trace (env : Env) (ps : TransferParams) :
    ∀ (urls : List String) (s : LoginState),
      (post_transfers env ps urls s).2 = urls.map (fun u => Action.postTransfer u ps) := by
  intro urls
  induction urls with
  | nil => intro s; rfl
  | cons u rest ih => intro s; simp [post_transfers, ih]

/-- Every action of a `_save_steam_auth` trace is a save-callback
invocation. -/
lemma save_steam_auth_trace (ex : Executor) (r : LoginJson) :
    ∀ a ∈ (save_steam_auth ex r).2, ∃ ps, a = Action.saveCallback ps := by
  intro a ha
  unfold save_steam_auth at ha
  split at ha
  · split at ha
    · simp at ha
      exact ⟨_, ha⟩
    · simp at ha
  · simp at ha

/-- Every action of a `_perform_redirects` trace is a transfer POST. -/
lemma perform_redirects_trace (env : Env) (r : LoginJson) (s : LoginState) :
    ∀ a ∈ (perform_redirects env r s).2, ∃ u ps, a = Action.postTransfer u ps := by
  intro a ha
  unfold perform_redirects at ha
  split at ha
  · simp at ha
  · split at ha
    · simp at ha
    · simp only [post_transfers_trace] at ha
      obtain ⟨u, -, rfl⟩ := List.mem_map.mp ha
      exact ⟨u, _, rfl⟩

/-- Every action of a `set_sessionid_cookies` trace is an explicit cookie
set. -/
lemma set_sessionid_trace (s : LoginState) :
    ∀ a ∈ (set_sessionid_cookies s).2, ∃ c, a = Action.setCookie c := by
  intro a ha
  unfold set_sessionid_cookies at ha
  split at ha
  · simp at ha
  · simp at ha
    rcases ha with h | h
    · exact ⟨_, h⟩
    · exact ⟨_, h⟩

/-- Every action of a `finish_login` trace is a save-callback invocation, a
transfer POST or an explicit cookie set. -/
lemma finish_login_trace (ex : Executor) (env : Env) (r : LoginJson) (s : LoginState) :
    ∀ a ∈ (finish_login ex env r s).2,
      (∃ ps, a = Action.saveCallback ps) ∨ (∃ u ps, a = Action.postTransfer u ps)
        ∨ (∃ c, a = Action.setCookie c) := by
  intro a ha
  unfold finish_login at ha
  split at ha
  · simp at ha
  · split at ha
    · rename_i e acts₃ heq
      exact Or.inl (save_steam_auth_trace ex r a (by rw [heq]; exact ha))
    · rename_i u acts₃ heq
      split at ha
      · rename_i e acts₄ heq₄
        rcases List.mem_append.mp ha with hm | hm
        · exact Or.inl (save_steam_auth_trace ex r a (by rw [heq]; exact hm))
        · exact Or.inr (Or.inl (perform_redirects_trace env r s a (by rw [heq₄]; exact hm)))
      · rename_i s₃ acts₄ heq₄
        split at ha
        · rename_i e acts₅ heq₅
          rcases List.mem_append.mp ha with hm | hm
          · rcases List.mem_append.mp hm with hm' | hm'
            · exact Or.inl (save_steam_auth_trace ex r a (by rw [heq]; exact hm'))
            · exact Or.inr (Or.inl (perform_redirects_trace env r s a (by rw [heq₄]; exact hm')))
          · exact Or.inr (Or.inr (set_sessionid_trace s₃ a (by rw [heq₅]; exact hm)))
        · rename_i s₄ acts₅ heq₅
          rcases List.mem_append.mp ha with hm | hm
          · rcases List.mem_append.mp hm with hm' | hm'
            · exact Or.inl (save_steam_auth_trace ex r a (by rw [heq]; exact hm'))
            · exact Or.inr (Or.inl (perform_redirects_trace env r s a (by rw [heq₄]; exact hm')))
          · exact Or.inr (Or.inr (set_sessionid_trace s₃ a (by rw [heq₅]; exact hm)))

/-- The tail of `login` after challenge resolution performs no login POST, no
key POST, no code generation and no email-callback invocation. -/
lemma finish_login_counts (ex : Executor) (env : Env) (r : LoginJson) (s : LoginState) :
    countPostLogin (finish_login ex env r s).2 = 0
    ∧ countGenCode (finish_login ex env r s).2 = 0
    ∧ countEmailCb (finish_login ex env r s).2 = 0
    ∧ countPostKey (finish_login ex env r s).2 = 0 := by
  refine ⟨?_, ?_, ?_, ?_⟩ <;>
    · simp only [countPostLogin, countGenCode, countEmailCb, countPostKey]
      rw [List.countP_eq_zero]
      intro a ha
      rcases finish_login_trace ex env r s a ha with ⟨ps, rfl⟩ | ⟨u, ps, rfl⟩ | ⟨c, rfl⟩ <;>
        simp [isPostLogin, isGenCode, isEmailCb, isPostKey]

/-- `_assert_valid_credentials` only fails with `InvalidCredentials` or the
`KeyError` on a missing `message`. -/
lemma assert_error_cases (r : LoginJson) (e : LoginError)
    (h : assert_valid_credentials r = .error e) :
    (∃ m, e = .invalidCredentials m) ∨ e = .keyError "message" := by
  unfold assert_valid_credentials at h
  split at h
  · simp at h
  · split at h
    · exact Or.inl ⟨_, (Except.error.inj h).symm⟩
    · exact Or.inr (Except.error.inj h).symm

/-- `_assert_valid_credentials` succeeds exactly on a successful response. -/
lemma assert_ok_iff (r : LoginJson) :
    (∃ u, assert_valid_credentials r = .ok u) ↔ r.success = true := by
  unfold assert_valid_credentials
  constructor
  · intro ⟨u, hu⟩
    by_contra hs
    simp [Bool.of_not_eq_true hs] at hu
    split at hu <;> simp at hu
  · intro hs
    simp [hs]

/-- `_save_steam_auth` fails only with the `KeyError` on
`transfer_parameters`, and only when the callback is callable and the field
is absent. -/
lemma save_error_cases (ex : Executor) (r : LoginJson) (e : LoginError)
    (h : (save_steam_auth ex r).1 = .error e) :
    e = .keyError "transfer_parameters" ∧ ex.hasSaveCallback = true
      ∧ r.transfer_parameters = none := by
  unfold save_steam_auth at h
  split at h
  · rename_i hs
    split at h
    · simp at h
    · rename_i hp
      exact ⟨(Except.error.inj h).symm, by simpa using hs, hp⟩
  · simp at h

/-- If `_save_steam_auth` returns normally while `transfer_parameters` is
absent, the save callback was not callable. -/
lemma save_ok_none (ex : Executor) (r : LoginJson) (u : Unit) (acts : List Action)
    (h : save_steam_auth ex r = (.ok u, acts)) (hp : r.transfer_parameters = none) :
    ex.hasSaveCallback = false := by
  unfold save_steam_auth at h
  split at h
  · rw [hp] at h
    simp at h
  · rename_i hs
    simpa using hs

/-- `_perform_redirects` fails with the redirect `Exception` exactly when the
parameters are absent, and otherwise only with the `KeyError` on
`transfer_urls`. -/
lemma perform_redirects_error_cases (env : Env) (r : LoginJson) (s : LoginState)
    (e : LoginError) (h : (perform_redirects env r s).1 = .error e) :
    (e = .redirectError ∧ r.transfer_parameters = none) ∨ e = .keyError "transfer_urls" := by
  unfold perform_redirects at h
  split at h
  · rename_i hp
    exact Or.inl ⟨(Except.error.inj h).symm, hp⟩
  · split at h
    · exact Or.inr (Except.error.inj h).symm
    · simp at h

/-- `set_sessionid_cookies` fails only with the `KeyError` on a missing
`sessionid` cookie. -/
lemma set_sessionid_error_cases (s : LoginState) (e : LoginError)
    (h : (set_sessionid_cookies s).1 = .error e) : e = .keyError "sessionid" := by
  unfold set_sessionid_cookies at h
  split at h
  · exact (Except.error.inj h).symm
  · simp at h

/-- The redirect `Exception` can escape the tail of `login` only when the
save callback is not callable (otherwise the `KeyError` in
`_save_steam_auth` preempts it) and the parameters are absent. -/
lemma finish_login_redirectError (ex : Executor) (env : Env) (r : LoginJson)
    (s : LoginState) (h : (finish_login ex env r s).1 = .error .redirectError) :
    ex.hasSaveCallback = false ∧ r.transfer_parameters = none := by
  unfold finish_login at h
  split at h
  · rename_i e heq
    simp at h
    subst h
    rcases assert_error_cases r _ heq with ⟨m, hm⟩ | hm <;> simp at hm
  · split at h
    · rename_i e acts₃ heq
      simp at h
      subst h
      obtain ⟨he, -, -⟩ := save_error_cases ex r _ (congrArg Prod.fst heq)
      simp at he
    · rename_i u acts₃ heq
      split at h
      · rename_i e acts₄ heq₄
        simp at h
        subst h
        rcases perform_redirects_error_cases env r s _ (congrArg Prod.fst heq₄) with
          ⟨-, hp⟩ | hk
        · exact ⟨save_ok_none ex r u acts₃ heq hp, hp⟩
        · simp at hk
      · rename_i s₃ acts₄ heq₄
        split at h
        · rename_i e acts₅ heq₅
          simp at h
          subst h
          have := set_sessionid_error_cases s₃ _ (congrArg Prod.fst heq₅)
          simp at this
        · simp at h

/-- `https://` is 8 characters: the community cookie domain. -/
lemma community_domain_eq : COMMUNITY_URL.drop 8 = "steamcommunity.com" := rfl

/-- `https://` is 8 characters: the store cookie domain. -/
lemma store_domain_eq : STORE_URL.drop 8 = "store.steampowered.com" := rfl

/-- Filtering by a weaker predicate does not change the first match of a
stronger one. -/
lemma find?_filter_eq {p q : Cookie → Bool} (hpq : ∀ a, p a = true → q a = true) :
    ∀ l : List Cookie, (l.filter q).find? p = l.find? p := by
  intro l
  induction l with
  | nil => rfl
  | cons a l ih =>
    by_cases hq : q a = true
    · rw [List.filter_cons_of_pos hq]
      by_cases hp : p a = true
      · rw [List.find?_cons_of_pos _ hp, List.find?_cons_of_pos _ hp]
      · rw [List.find?_cons_of_neg _ (by simpa using hp),
          List.find?_cons_of_neg _ (by simpa using hp), ih]
    · rw [List.filter_cons_of_neg (by simpa using hq), ih,
        List.find?_cons_of_neg]
      intro hp
      exact hq (hpq a (by simpa using hp))

/-- Setting a cookie makes its value the visible one for its name and
domain. -/
lemma cookieValue_cookieSet_same (jar : List Cookie) (c : Cookie) :
    cookieValue (cookieSet jar c) c.name c.domain = some c.value := by
  unfold cookieValue cookieSet
  rw [List.reverse_append]
  simp

/-- Setting a cookie leaves the visible value of every other (name, domain)
pair unchanged. -/
lemma cookieValue_cookieSet_other (jar : List Cookie) (c : Cookie) (n d : String)
    (h : ¬(n = c.name ∧ d = c.domain)) :
    cookieValue (cookieSet jar c) n d = cookieValue jar n d := by
  unfold cookieValue cookieSet
  rw [List.reverse_append]
  have hc : ((c.name = n && c.domain = d) : Bool) = false := by
    by_cases h1 : c.name = n
    · by_cases h2 : c.domain = d
      · exact absurd ⟨h1.symm, h2.symm⟩ h
      · simp [h2]
    · simp [h1]
  simp only [List.reverse_cons, List.reverse_nil, List.nil_append,
    List.singleton_append]
  rw [List.find?_cons_of_neg _ (by simpa using hc)]
  rw [← List.filter_reverse]
  rw [find?_filter_eq]
  intro a hpa
  simp only [Bool.and_eq_true, decide_eq_true_eq] at hpa
  simp only [Bool.not_eq_true']
  by_cases h1 : a.name = c.name
  · by_cases h2 : a.domain = c.domain
    · exact absurd ⟨hpa.1.symm.trans h1, hpa.2.symm.trans h2⟩ h
    · simp [h2]
  · simp [h1]

/-- After setting the community cookie and then the store cookie for value
`v`, both domains show `sessionid = v`. -/
lemma cookieValue_sessionid_pair (jar : List Cookie) (v : String) :
    cookieValue (cookieSet (cookieSet jar (create_session_id_cookie v "steamcommunity.com"))
        (create_session_id_cookie v "store.steampowered.com"))
      "sessionid" "steamcommunity.com" = some v
    ∧ cookieValue (cookieSet (cookieSet jar (create_session_id_cookie v "steamcommunity.com"))
        (create_session_id_cookie v "store.steampowered.com"))
      "sessionid" "store.steampowered.com" = some v := by
  constructor
  · rw [cookieValue_cookieSet_other]
    · exact cookieValue_cookieSet_same jar (create_session_id_cookie v "steamcommunity.com")
    · rintro ⟨-, h2⟩
      simp only [create_session_id_cookie] at h2
      exact absurd h2 (by decide)
  · exact cookieValue_cookieSet_same _ _

/-- A normal return of `set_sessionid_cookies` read some `sessionid` value
from the jar and left that value visible on both explicit domains. -/
lemma set_sessionid_cookies_ok (s s' : LoginState)
    (h : (set_sessionid_cookies s).1 = .ok s') :
    ∃ v, getDictLookup s.jar "sessionid" = some v
      ∧ cookieValue s'.jar "sessionid" "steamcommunity.com" = some v
      ∧ cookieValue s'.jar "sessionid" "store.steampowered.com" = some v := by
  unfold set_sessionid_cookies at h
  split at h
  · simp at h
  · rename_i v hv
    have hs' := (Except.ok.inj h).symm
    subst hs'
    exact ⟨v, hv, (cookieValue_sessionid_pair s.jar v).1,
      (cookieValue_sessionid_pair s.jar v).2⟩

/-- A normal return of the `login` tail leaves the `sessionid` value visible
on both explicit domains of the final jar. -/
lemma finish_login_ok_sessionid (ex : Executor) (env : Env) (r : LoginJson)
    (s : LoginState) (jarF : List Cookie)
    (h : (finish_login ex env r s).1 = .ok jarF) :
    ∃ v, cookieValue jarF "sessionid" "steamcommunity.com" = some v
      ∧ cookieValue jarF "sessionid" "store.steampowered.com" = some v := by
  unfold finish_login at h
  split at h
  · simp at h
  · split at h
    · simp at h
    · split at h
      · simp at h
      · split at h
        · simp at h
        · rename_i s₄ acts₅ heq₅
          simp at h
          obtain ⟨v, -, hv₁, hv₂⟩ :=
            set_sessionid_cookies_ok _ s₄ (congrArg Prod.fst heq₅)
          exact ⟨v, h ▸ hv₁, h ▸ hv₂⟩

/-- The `login` tail performs no login POST. -/
lemma countPostLogin_finish (ex : Executor) (env : Env) (r : LoginJson) (s : LoginState) :
    countPostLogin (finish_login ex env r s).2 = 0 :=
  (finish_login_counts ex env r s).1

/-- The `login` tail generates no one-time code. -/
lemma countGenCode_finish (ex : Executor) (env : Env) (r : LoginJson) (s : LoginState) :
    countGenCode (finish_login ex env r s).2 = 0 :=
  (finish_login_counts ex env r s).2.1

/-- The `login` tail invokes no email callback. -/
lemma countEmailCb_finish (ex : Executor) (env : Env) (r : LoginJson) (s : LoginState) :
    countEmailCb (finish_login ex env r s).2 = 0 :=
  (finish_login_counts ex env r s).2.2.1

/-- The `login` tail performs no key POST. -/
lemma countPostKey_finish (ex : Executor) (env : Env) (r : LoginJson) (s : LoginState) :
    countPostKey (finish_login ex env r s).2 = 0 :=
  (finish_login_counts ex env r s).2.2.2

/-- The `login` tail contributes no login-POST form bodies. -/
lemma postLoginDatas_finish (ex : Executor) (env : Env) (r : LoginJson) (s : LoginState) :
    postLoginDatas (finish_login ex env r s).2 = [] := by
  unfold postLoginDatas
  rw [List.filterMap_eq_nil_iff]
  intro a ha
  rcases finish_login_trace ex env r s a ha with ⟨ps, rfl⟩ | ⟨u, ps, rfl⟩ | ⟨c, rfl⟩ <;> rfl

/-- The transfer POSTs of the redirect loop trace, as (url, parameters)
pairs. -/
lemma transferPosts_map (urls : List String) (ps : TransferParams) :
    transferPosts (urls.map fun u => Action.postTransfer u ps) =
      urls.map fun u => (u, ps) := by
  induction urls with
  | nil => rfl
  | cons u rest ih => simpa [transferPosts] using ih

/-- `postLoginDatas` distributes over trace concatenation. -/
lemma postLoginDatas_append (l₁ l₂ : List Action) :
    postLoginDatas (l₁ ++ l₂) = postLoginDatas l₁ ++ postLoginDatas l₂ :=
  List.filterMap_append l₁ l₂ _

/-- `postLoginDatas` of the empty trace. -/
lemma postLoginDatas_nil : postLoginDatas [] = [] := rfl

/-- A login POST contributes its form body. -/
lemma postLoginDatas_cons_postLogin (d : RequestData) (tr : List Action) :
    postLoginDatas (.postLogin d :: tr) = d :: postLoginDatas tr := rfl

/-- A key POST contributes no form body. -/
lemma postLoginDatas_cons_postKey (u : String) (tr : List Action) :
    postLoginDatas (.postKey u :: tr) = postLoginDatas tr := rfl

/-- A code generation contributes no form body. -/
lemma postLoginDatas_cons_genCode (tr : List Action) :
    postLoginDatas (.genOneTimeCode :: tr) = postLoginDatas tr := rfl

/-- An email-callback invocation contributes no form body. -/
lemma postLoginDatas_cons_emailCb (tr : List Action) :
    postLoginDatas (.emailCallback :: tr) = postLoginDatas tr := rfl

/-- `transferPosts` distributes over trace concatenation. -/
lemma transferPosts_append (l₁ l₂ : List Action) :
    transferPosts (l₁ ++ l₂) = transferPosts l₁ ++ transferPosts l₂ :=
  List.filterMap_append l₁ l₂ _

/-- `transferPosts` of the empty trace. -/
lemma transferPosts_nil : transferPosts [] = [] := rfl

/-- A key POST is not a transfer POST. -/
lemma transferPosts_cons_postKey (u : String) (tr : List Action) :
    transferPosts (.postKey u :: tr) = transferPosts tr := rfl

/-- A login POST is not a transfer POST. -/
lemma transferPosts_cons_postLogin (d : RequestData) (tr : List Action) :
    transferPosts (.postLogin d :: tr) = transferPosts tr := rfl

/-- A save-callback invocation is not a transfer POST. -/
lemma transferPosts_cons_saveCb (ps : TransferParams) (tr : List Action) :
    transferPosts (.saveCallback ps :: tr) = transferPosts tr := rfl

/-- An explicit cookie set is not a transfer POST. -/
lemma transferPosts_cons_setCookie (c : Cookie) (tr : List Action) :
    transferPosts (.setCookie c :: tr) = transferPosts tr := rfl

/-- A transfer POST contributes its (url, parameters) pair. -/
lemma transferPosts_cons_postTransfer (u : String) (ps : TransferParams) (tr : List Action) :
    transferPosts (.postTransfer u ps :: tr) = (u, ps) :: transferPosts tr := rfl

/-- `countPostLogin` distributes over trace concatenation. -/
lemma countPostLogin_append (l₁ l₂ : List Action) :
    countPostLogin (l₁ ++ l₂) = countPostLogin l₁ + countPostLogin l₂ :=
  List.countP_append _ _ _

/-- `countPostLogin` on a cons cell. -/
lemma countPostLogin_cons (a : Action) (tr : List Action) :
    countPostLogin (a :: tr) = countPostLogin tr + if isPostLogin a then 1 else 0 :=
  List.countP_cons _ _ _

/-- `countPostLogin` of the empty trace. -/
lemma countPostLogin_nil : countPostLogin [] = 0 := rfl

/-- `countPostKey` distributes over trace concatenation. -/
lemma countPostKey_append (l₁ l₂ : List Action) :
    countPostKey (l₁ ++ l₂) = countPostKey l₁ + countPostKey l₂ :=
  List.countP_append _ _ _

/-- `countPostKey` on a cons cell. -/
lemma countPostKey_cons (a : Action) (tr : List Action) :
    countPostKey (a :: tr) = countPostKey tr + if isPostKey a then 1 else 0 :=
  List.countP_cons _ _ _

/-- `countPostKey` of the empty trace. -/
lemma countPostKey_nil : countPostKey [] = 0 := rfl

/-- `countPostTransfer` distributes over trace concatenation. -/
lemma countPostTransfer_append (l₁ l₂ : List Action) :
    countPostTransfer (l₁ ++ l₂) = countPostTransfer l₁ + countPostTransfer l₂ :=
  List.countP_append _ _ _

/-- `countPostTransfer` on a cons cell. -/
lemma countPostTransfer_cons (a : Action) (tr : List Action) :
    countPostTransfer (a :: tr) = countPostTransfer tr + if isPostTransfer a then 1 else 0 :=
  List.countP_cons _ _ _

/-- `countPostTransfer` of the empty trace. -/
lemma countPostTransfer_nil : countPostTransfer [] = 0 := rfl

/-- `countGenCode` distributes over trace concatenation. -/
lemma countGenCode_append (l₁ l₂ : List Action) :
    countGenCode (l₁ ++ l₂) = countGenCode l₁ + countGenCode l₂ :=
  List.countP_append _ _ _

/-- `countGenCode` on a cons cell. -/
lemma countGenCode_cons (a : Action) (tr : List Action) :
    countGenCode (a :: tr) = countGenCode tr + if isGenCode a then 1 else 0 :=
  List.countP_cons _ _ _

/-- `countGenCode` of the empty trace. -/
lemma countGenCode_nil : countGenCode [] = 0 := rfl

/-- `countEmailCb` distributes over trace concatenation. -/
lemma countEmailCb_append (l₁ l₂ : List Action) :
    countEmailCb (l₁ ++ l₂) = countEmailCb l₁ + countEmailCb l₂ :=
  List.countP_append _ _ _

/-- `countEmailCb` on a cons cell. -/
lemma countEmailCb_cons (a : Action) (tr : List Action) :
    countEmailCb (a :: tr) = countEmailCb tr + if isEmailCb a then 1 else 0 :=
  List.countP_cons _ _ _

/-- `countEmailCb` of the empty trace. -/
lemma countEmailCb_nil : countEmailCb [] = 0 := rfl

/-- A `_send_login_request` trace has no email-callback invocation, no code
generation, no transfer POST, and at most one login POST. -/
lemma send_counts (ex : Executor) (env : Env) (s : LoginState) :
    countEmailCb (send_login_request ex env s).2 = 0
    ∧ countGenCode (send_login_request ex env s).2 = 0
    ∧ countPostTransfer (send_login_request ex env s).2 = 0
    ∧ countPostLogin (send_login_request ex env s).2 ≤ 1 := by
  unfold send_login_request
  split
  · rename_i e acts heq
    have h2 : acts = (fetch_rsa_aux ex env 5 s).2 := (congrArg Prod.snd heq).symm
    obtain ⟨c1, c2, c3, c4⟩ := fetch_aux_counts ex env 5 s
    simp only [h2]
    exact ⟨c4, c3, c2, by omega⟩
  · rename_i rp s₁ acts heq
    have h2 : acts = (fetch_rsa_aux ex env 5 s).2 := (congrArg Prod.snd heq).symm
    obtain ⟨c1, c2, c3, c4⟩ := fetch_aux_counts ex env 5 s
    simp only [h2, countEmailCb_append, countGenCode_append,
      countPostTransfer_append, countPostLogin_append, countEmailCb_cons,
      countGenCode_cons, countPostTransfer_cons, countPostLogin_cons,
      countEmailCb_nil, countGenCode_nil, countPostTransfer_nil,
      countPostLogin_nil, isEmailCb, isGenCode, isPostTransfer, isPostLogin]
    simp [c1, c2, c3, c4]

/-- `_check_for_captcha` only raises `CaptchaRequired`. -/
lemma check_for_captcha_error_cases (r : LoginJson) (e : LoginError)
    (h : check_for_captcha r = .error e) : e = .captchaRequired := by
  unfold check_for_captcha at h
  split at h
  · exact (Except.error.inj h).symm
  · simp at h

/-- `set_sessionid_cookies` performs no transfer POST. -/
lemma transferPosts_set_sessionid (s : LoginState) :
    transferPosts (set_sessionid_cookies s).2 = [] := by
  unfold transferPosts
  rw [List.filterMap_eq_nil_iff]
  intro a ha
  obtain ⟨c, rfl⟩ := set_sessionid_trace s a ha
  rfl

/-- C1 counterexample: in `envC1` the resubmitted (second) login response
again has `requires_twofactor=true` and `success=false`, and a third response
would succeed — yet the orchestrator performs exactly two login POSTs and one
code generation and terminates with `InvalidCredentials` while the server is
still requesting a two-factor challenge.  The resubmission does not repeat
until success or a non-two-factor failure. -/
theorem C1_counterexample :
    (envC1.loginResponses 1).requires_twofactor = true
    ∧ (envC1.loginResponses 1).success = false
    ∧ (envC1.loginResponses 2).success = true
    ∧ countPostLogin (login exBase envC1 []).2 = 2
    ∧ countGenCode (login exBase envC1 []).2 = 1
    ∧ (login exBase envC1 []).1 = .error (.invalidCredentials "2fa-again") := by
  decide

/-- C1 (amended): if the first login response has `requires_twofactor=true`
and `success=false` (and no captcha), exactly one resubmission occurs,
carrying a freshly generated one-time code (the first submission carried a
blank code); the resubmitted response is treated as final, so there are
exactly two login POSTs and one code generation in every such attempt,
whatever the second response contains. -/
theorem C1_two_factor_single_resubmission (ex : Executor) (env : Env)
    (jar₀ : List Cookie) (keyOf : Nat → RsaParams)
    (hkey : ∀ i, parseKeyResponse (env.keyResponses i) = .ok (keyOf i))
    (hcap : (env.loginResponses 0).captcha_needed = false)
    (hfail : (env.loginResponses 0).success = false)
    (h2fa : (env.loginResponses 0).requires_twofactor = true) :
    countPostLogin (login ex env jar₀).2 = 2
    ∧ countGenCode (login ex env jar₀).2 = 1
    ∧ countEmailCb (login ex env jar₀).2 = 0
    ∧ (postLoginDatas (login ex env jar₀).2).map (·.twofactorcode) =
        ["", env.oneTimeCode ex.shared_secret 0] := by
  have h0 : parseKeyResponse
      (env.keyResponses (set_steamauth_cookies ex (initState jar₀)).keyIdx) =
      .ok (keyOf 0) := by simpa using hkey 0
  simp only [login]
  rw [send_login_request_ok ex env _ _ h0]
  simp only [set_steamauth_loginIdx, initState_loginIdx, set_steamauth_otc,
    initState_otc, set_steamauth_ea, initState_ea, set_steamauth_keyIdx,
    initState_keyIdx, set_steamauth_codeIdx, initState_codeIdx,
    set_steamauth_emailIdx, initState_emailIdx, applyNet_keyIdx,
    applyNet_loginIdx, applyNet_codeIdx, applyNet_emailIdx, applyNet_otc,
    applyNet_ea]
  simp only [check_for_captcha, hcap, Bool.false_eq_true, if_false]
  simp only [enter_steam_guard_if_necessary, hfail, h2fa, Bool.false_eq_true,
    if_false, if_true]
  rw [send_login_request_ok ex env _ (keyOf 1) ?hp]
  case hp => simpa using hkey 1
  simp [countPostLogin_append, countPostLogin_cons, countPostLogin_nil,
    countPostLogin_finish, countGenCode_append, countGenCode_cons,
    countGenCode_nil, countGenCode_finish, countEmailCb_append,
    countEmailCb_cons, countEmailCb_nil, countEmailCb_finish, isPostLogin,
    isGenCode, isEmailCb, postLoginDatas_append, postLoginDatas_cons_postKey,
    postLoginDatas_cons_postLogin, postLoginDatas_cons_genCode,
    postLoginDatas_nil, postLoginDatas_finish, prepare_login_request_data]

/-- C1 witness: the amended theorem at the concrete two-factor-then-success
environment. -/
theorem C1_two_factor_single_resubmission_witness :
    countPostLogin (login exBase envTwoFactorOnce []).2 = 2
    ∧ countGenCode (login exBase envTwoFactorOnce []).2 = 1
    ∧ countEmailCb (login exBase envTwoFactorOnce []).2 = 0
    ∧ (postLoginDatas (login exBase envTwoFactorOnce []).2).map (·.twofactorcode) =
        ["", envTwoFactorOnce.oneTimeCode exBase.shared_secret 0] :=
  C1_two_factor_single_resubmission exBase envTwoFactorOnce []
    (fun _ => ⟨⟨65537, 1⟩, "TS"⟩) (fun _ => rfl) rfl rfl rfl

/-- C2 counterexample: in `envC2` the first response demands two-factor and
the resubmitted response has `captcha_needed=true`, yet no
`CaptchaRequired` is raised — the attempt completes normally and performs
two redirect POSTs.  Captcha is only checked on the first response. -/
theorem C2_counterexample :
    (envC2.loginResponses 1).captcha_needed = true
    ∧ exceptIsOk (login exBase envC2 []).1 = true
    ∧ countPostTransfer (login exBase envC2 []).2 = 2 := by
  decide

/-- C2 (amended): if the **first** login response has `captcha_needed=true`,
`CaptchaRequired` is raised immediately: exactly one login POST, no
resubmission, no code generation, no email callback, and no redirect
POSTs.  Resubmitted responses are not captcha-checked. -/
theorem C2_captcha_first_response (ex : Executor) (env : Env) (jar₀ : List Cookie)
    (keyOf : Nat → RsaParams)
    (hkey : ∀ i, parseKeyResponse (env.keyResponses i) = .ok (keyOf i))
    (hcap : (env.loginResponses 0).captcha_needed = true) :
    (login ex env jar₀).1 = .error .captchaRequired
    ∧ countPostLogin (login ex env jar₀).2 = 1
    ∧ countPostTransfer (login ex env jar₀).2 = 0
    ∧ countGenCode (login ex env jar₀).2 = 0
    ∧ countEmailCb (login ex env jar₀).2 = 0 := by
  have h0 : parseKeyResponse
      (env.keyResponses (set_steamauth_cookies ex (initState jar₀)).keyIdx) =
      .ok (keyOf 0) := by simpa using hkey 0
  simp only [login]
  rw [send_login_request_ok ex env _ _ h0]
  simp only [set_steamauth_loginIdx, initState_loginIdx]
  simp [check_for_captcha, hcap, countPostLogin, countPostTransfer,
    countGenCode, countEmailCb, isPostLogin, isPostTransfer, isGenCode,
    isEmailCb]

/-- C2 witness: the amended theorem at the concrete captcha environment. -/
theorem C2_captcha_first_response_witness :
    (login exBase envCaptcha []).1 = .error .captchaRequired
    ∧ countPostLogin (login exBase envCaptcha []).2 = 1
    ∧ countPostTransfer (login exBase envCaptcha []).2 = 0
    ∧ countGenCode (login exBase envCaptcha []).2 = 0
    ∧ countEmailCb (login exBase envCaptcha []).2 = 0 :=
  C2_captcha_first_response exBase envCaptcha []
    (fun _ => ⟨⟨65537, 1⟩, "TS"⟩) (fun _ => rfl) rfl

/-- C3: one `_fetch_rsa_params` episode POSTs the key endpoint at most 6
times (1 + 5 retries) and never POSTs the login endpoint; if all 6 responses
lack a required field it raises the key-retrieval error after exactly 6 key
POSTs; it stops after exactly `j + 1` calls as soon as the `j`-th response
stops triggering the `KeyError` retry; and when every key response of an
attempt lacks a required field, `login` raises the key-retrieval error with
no login POST ever issued. -/
theorem C3_rsa_fetch_bounded (ex : Executor) (env : Env) (s : LoginState)
    (jar₀ : List Cookie) :
    countPostKey (fetch_rsa_params ex env s).2 ≤ 6
    ∧ countPostLogin (fetch_rsa_params ex env s).2 = 0
    ∧ ((∀ i, i < 6 → retriesOn (env.keyResponses (s.keyIdx + i)) = true) →
        fetch_rsa_params ex env s =
          (.error .keyRetrieval, List.replicate 6 (.postKey ex.username)))
    ∧ (∀ j, j < 6 → (∀ i, i < j → retriesOn (env.keyResponses (s.keyIdx + i)) = true) →
        retriesOn (env.keyResponses (s.keyIdx + j)) = false →
        countPostKey (fetch_rsa_params ex env s).2 = j + 1)
    ∧ ((∀ i, i < 6 → retriesOn (env.keyResponses i) = true) →
        (login ex env jar₀).1 = .error .keyRetrieval
        ∧ countPostLogin (login ex env jar₀).2 = 0) := by
  refine ⟨fetch_aux_count_le ex env 5 s, (fetch_aux_counts ex env 5 s).1, ?_, ?_, ?_⟩
  · intro h
    exact fetch_aux_all_fail ex env 5 s (fun i hi => h i (by omega))
  · intro j hj hpre hstop
    exact fetch_aux_stops ex env 5 s j (by omega) hpre hstop
  · intro h
    have hall : fetch_rsa_params ex env (set_steamauth_cookies ex (initState jar₀)) =
        (.error .keyRetrieval, List.replicate 6 (.postKey ex.username)) := by
      apply fetch_aux_all_fail ex env 5
      intro i hi
      simpa using h i (by omega)
    constructor
    · simp only [login]
      rw [send_login_request_error ex env _ _ _ hall]
    · simp only [login]
      rw [send_login_request_error ex env _ _ _ hall]
      simp [List.replicate_succ, countPostLogin_cons, countPostLogin_nil,
        isPostLogin]

/-- C3 witness: the key endpoint omits every field on all attempts —
`KeyRetrievalError` and no login POST. -/
theorem C3_rsa_fetch_bounded_witness :
    (login exBase envKeyFail []).1 = .error .keyRetrieval
    ∧ countPostLogin (login exBase envKeyFail []).2 = 0 :=
  (C3_rsa_fetch_bounded exBase envKeyFail (initState []) []).2.2.2.2 (fun _ _ => rfl)

/-- C4 counterexample: with a callable save callback and a successful
response lacking `transfer_parameters`, the attempt fails with the
`KeyError` raised inside `_save_steam_auth`, not with the redirect
`Exception` (RedirectError). -/
theorem C4_counterexample :
    exSave.hasSaveCallback = true
    ∧ (envNoParams.loginResponses 0).success = true
    ∧ (envNoParams.loginResponses 0).transfer_parameters = none
    ∧ (login exSave envNoParams []).1 = .error (.keyError "transfer_parameters")
    ∧ (login exSave envNoParams []).1 ≠ .error .redirectError := by
  decide

/-- C4 (amended): when no save callback is callable and the final (first,
successful) response lacks `transfer_parameters`, the redirect `Exception`
(RedirectError) is raised and no redirect POST occurs; in general
`_perform_redirects` raises it before any POST whenever the parameters are
absent. -/
theorem C4_redirect_error_without_save (ex : Executor) (env : Env)
    (jar₀ : List Cookie) (keyOf : Nat → RsaParams)
    (hkey : ∀ i, parseKeyResponse (env.keyResponses i) = .ok (keyOf i))
    (hsave : ex.hasSaveCallback = false)
    (hcap : (env.loginResponses 0).captcha_needed = false)
    (hsucc : (env.loginResponses 0).success = true)
    (hpar : (env.loginResponses 0).transfer_parameters = none) :
    (login ex env jar₀).1 = .error .redirectError
    ∧ countPostTransfer (login ex env jar₀).2 = 0
    ∧ ∀ (r : LoginJson) (s : LoginState), r.transfer_parameters = none →
        perform_redirects env r s = (.error .redirectError, []) := by
  have h0 : parseKeyResponse
      (env.keyResponses (set_steamauth_cookies ex (initState jar₀)).keyIdx) =
      .ok (keyOf 0) := by simpa using hkey 0
  refine ⟨?_, ?_, ?_⟩
  · simp only [login]
    rw [send_login_request_ok ex env _ _ h0]
    simp only [set_steamauth_loginIdx, initState_loginIdx]
    simp only [check_for_captcha, hcap, Bool.false_eq_true, if_false]
    simp only [enter_steam_guard_if_necessary, hsucc, if_true]
    simp [finish_login, assert_valid_credentials, hsucc, save_steam_auth,
      hsave, perform_redirects, hpar]
  · simp only [login]
    rw [send_login_request_ok ex env _ _ h0]
    simp only [set_steamauth_loginIdx, initState_loginIdx]
    simp only [check_for_captcha, hcap, Bool.false_eq_true, if_false]
    simp only [enter_steam_guard_if_necessary, hsucc, if_true]
    simp [finish_login, assert_valid_credentials, hsucc, save_steam_auth,
      hsave, perform_redirects, hpar, countPostTransfer_append,
      countPostTransfer_cons, countPostTransfer_nil, isPostTransfer]
  · intro r s hp
    simp [perform_redirects, hp]

/-- C4 witness: the amended theorem at the concrete no-parameters
environment with no save callback. -/
theorem C4_redirect_error_without_save_witness :
    (login exBase envNoParams []).1 = .error .redirectError
    ∧ countPostTransfer (login exBase envNoParams []).2 = 0 :=
  ⟨(C4_redirect_error_without_save exBase envNoParams []
      (fun _ => ⟨⟨65537, 1⟩, "TS"⟩) (fun _ => rfl) rfl rfl rfl rfl).1,
   (C4_redirect_error_without_save exBase envNoParams []
      (fun _ => ⟨⟨65537, 1⟩, "TS"⟩) (fun _ => rfl) rfl rfl rfl rfl).2.1⟩

/-- C5: when the final (first, successful) response carries both
`transfer_parameters` and `transfer_urls`, the attempt POSTs exactly the
parameters map once to each URL, in the server-given order, with no retry;
and in general the redirect loop's trace is exactly one POST of the
parameters per URL in order. -/
theorem C5_transfer_posts (ex : Executor) (env : Env) (jar₀ : List Cookie)
    (keyOf : Nat → RsaParams) (ps : TransferParams) (urls : List String)
    (hkey : ∀ i, parseKeyResponse (env.keyResponses i) = .ok (keyOf i))
    (hcap : (env.loginResponses 0).captcha_needed = false)
    (hsucc : (env.loginResponses 0).success = true)
    (hp : (env.loginResponses 0).transfer_parameters = some ps)
    (hu : (env.loginResponses 0).transfer_urls = some urls) :
    transferPosts (login ex env jar₀).2 = urls.map (fun u => (u, ps))
    ∧ ∀ (r : LoginJson) (s : LoginState) (ps' : TransferParams) (urls' : List String),
        r.transfer_parameters = some ps' → r.transfer_urls = some urls' →
        (perform_redirects env r s).2 =
          urls'.map (fun u => Action.postTransfer u ps') := by
  have h0 : parseKeyResponse
      (env.keyResponses (set_steamauth_cookies ex (initState jar₀)).keyIdx) =
      .ok (keyOf 0) := by simpa using hkey 0
  constructor
  · simp only [login]
    rw [send_login_request_ok ex env _ _ h0]
    simp only [set_steamauth_loginIdx, initState_loginIdx]
    simp only [check_for_captcha, hcap, Bool.false_eq_true, if_false]
    simp only [enter_steam_guard_if_necessary, hsucc, if_true]
    simp only [finish_login, assert_valid_credentials, hsucc, if_true,
      save_steam_auth, perform_redirects, hp, hu, post_transfers_trace]
    cases hsv : ex.hasSaveCallback <;>
      simp only [Bool.false_eq_true, if_false, if_true] <;>
      split <;>
      (rename_i x5 a5 hq5
       have hacts : a5 = (set_sessionid_cookies _).2 := (congrArg Prod.snd hq5).symm
       subst hacts
       simp [transferPosts_append, transferPosts_cons_postKey,
         transferPosts_cons_postLogin, transferPosts_cons_saveCb,
         transferPosts_nil, transferPosts_map, transferPosts_set_sessionid])
  · intro r s ps' urls' hp' hu'
    simp [perform_redirects, hp', hu', post_transfers_trace]

/-- C5 witness: the theorem at the concrete happy-path environment with two
transfer URLs. -/
theorem C5_transfer_posts_witness :
    transferPosts (login exBase envBase []).2 =
      ["u1", "u2"].map (fun u => (u, [("steamid", "42")])) :=
  (C5_transfer_posts exBase envBase [] (fun _ => ⟨⟨65537, 1⟩, "TS"⟩)
    [("steamid", "42")] ["u1", "u2"] (fun _ => rfl) rfl rfl rfl rfl).1

/-- C6: every login attempt that completes successfully leaves a `sessionid`
cookie with one and the same value on both the community domain and the
store domain of the final jar. -/
theorem C6_sessionid_on_both_domains (ex : Executor) (env : Env)
    (jar₀ jarF : List Cookie) (h : (login ex env jar₀).1 = .ok jarF) :
    ∃ v, cookieValue jarF "sessionid" "steamcommunity.com" = some v
      ∧ cookieValue jarF "sessionid" "store.steampowered.com" = some v := by
  simp only [login] at h
  split at h
  · simp at h
  · split at h
    · simp at h
    · split at h
      · simp at h
      · exact finish_login_ok_sessionid _ _ _ _ _ h

/-- C6 witness: the theorem at the concrete happy-path environment, whose
final jar is computed explicitly. -/
theorem C6_sessionid_on_both_domains_witness :
    ∃ v, cookieValue
        [{ name := "sessionid", value := "S", domain := "" },
         { name := "sessionid", value := "S", domain := "steamcommunity.com" },
         { name := "sessionid", value := "S", domain := "store.steampowered.com" }]
        "sessionid" "steamcommunity.com" = some v
      ∧ cookieValue
        [{ name := "sessionid", value := "S", domain := "" },
         { name := "sessionid", value := "S", domain := "steamcommunity.com" },
         { name := "sessionid", value := "S", domain := "store.steampowered.com" }]
        "sessionid" "store.steampowered.com" = some v :=
  C6_sessionid_on_both_domains exBase envBase [] _ (by decide)

/-- C7: after challenge resolution, `_assert_valid_credentials` raises
`InvalidCredentials` carrying the server's `message` field exactly when the
final response reports failure (it returns normally iff `success` is true);
at the `login` level, a first response that fails with no challenge flags
and no captcha makes the attempt raise `InvalidCredentials` with that
message. -/
theorem C7_invalid_credentials (ex : Executor) (env : Env) (jar₀ : List Cookie)
    (keyOf : Nat → RsaParams) (m : String)
    (hkey : ∀ i, parseKeyResponse (env.keyResponses i) = .ok (keyOf i))
    (hcap : (env.loginResponses 0).captcha_needed = false)
    (hfail : (env.loginResponses 0).success = false)
    (h2fa : (env.loginResponses 0).requires_twofactor = false)
    (hem : (env.loginResponses 0).emailauth_needed = false)
    (hmsg : (env.loginResponses 0).message = some m) :
    (login ex env jar₀).1 = .error (.invalidCredentials m)
    ∧ ∀ (r : LoginJson),
        ((∃ u, assert_valid_credentials r = .ok u) ↔ r.success = true)
        ∧ ∀ m', r.success = false → r.message = some m' →
            assert_valid_credentials r = .error (.invalidCredentials m') := by
  have h0 : parseKeyResponse
      (env.keyResponses (set_steamauth_cookies ex (initState jar₀)).keyIdx) =
      .ok (keyOf 0) := by simpa using hkey 0
  constructor
  · simp only [login]
    rw [send_login_request_ok ex env _ _ h0]
    simp only [set_steamauth_loginIdx, initState_loginIdx]
    simp only [check_for_captcha, hcap, Bool.false_eq_true, if_false]
    simp only [enter_steam_guard_if_necessary, hfail, h2fa, hem,
      Bool.false_eq_true, if_false]
    simp [finish_login, assert_valid_credentials, hfail, hmsg]
  · intro r
    refine ⟨assert_ok_iff r, ?_⟩
    intro m' hf hm
    simp [assert_valid_credentials, hf, hm]

/-- C7 witness: the theorem at the concrete plainly-failing environment with
message `bad pw`. -/
theorem C7_invalid_credentials_witness :
    (login exBase envFail []).1 = .error (.invalidCredentials "bad pw") :=
  (C7_invalid_credentials exBase envFail [] (fun _ => ⟨⟨65537, 1⟩, "TS"⟩)
    "bad pw" (fun _ => rfl) rfl rfl rfl rfl rfl).1

/-- C8 counterexample: in `envC8` the resubmitted (second) login response
again has `emailauth_needed=true` and `success=false`, yet the email
callback is invoked only once in the attempt and no further resubmission
occurs — not once per such response. -/
theorem C8_counterexample :
    (envC8.loginResponses 1).emailauth_needed = true
    ∧ (envC8.loginResponses 1).success = false
    ∧ countEmailCb (login exBase envC8 []).2 = 1
    ∧ countPostLogin (login exBase envC8 []).2 = 2
    ∧ (login exBase envC8 []).1 = .error (.invalidCredentials "email-again") := by
  decide

/-- C8 (amended): if the **first** login response has `emailauth_needed=true`,
`success=false` and `requires_twofactor=false`, the email callback is
invoked exactly once and the single resubmission carries the code it
returned (the first submission carried a blank code); responses to the
resubmission are not challenge-inspected.  When a response signals both
two-factor and email auth, the two-factor branch takes precedence: the email
callback is not invoked and one code is generated. -/
theorem C8_email_auth_once (ex : Executor) (env : Env) (jar₀ : List Cookie)
    (keyOf : Nat → RsaParams)
    (hkey : ∀ i, parseKeyResponse (env.keyResponses i) = .ok (keyOf i))
    (hcap : (env.loginResponses 0).captcha_needed = false)
    (hfail : (env.loginResponses 0).success = false)
    (h2fa : (env.loginResponses 0).requires_twofactor = false)
    (hem : (env.loginResponses 0).emailauth_needed = true) :
    countEmailCb (login ex env jar₀).2 = 1
    ∧ countPostLogin (login ex env jar₀).2 = 2
    ∧ countGenCode (login ex env jar₀).2 = 0
    ∧ (postLoginDatas (login ex env jar₀).2).map (·.emailauth) =
        ["", env.emailCodes 0]
    ∧ ∀ (r : LoginJson) (s : LoginState), r.success = false →
        r.requires_twofactor = true → r.emailauth_needed = true →
        countEmailCb (enter_steam_guard_if_necessary ex env r s).2 = 0
        ∧ countGenCode (enter_steam_guard_if_necessary ex env r s).2 = 1 := by
  have h0 : parseKeyResponse
      (env.keyResponses (set_steamauth_cookies ex (initState jar₀)).keyIdx) =
      .ok (keyOf 0) := by simpa using hkey 0
  have hmain : countEmailCb (login ex env jar₀).2 = 1
      ∧ countPostLogin (login ex env jar₀).2 = 2
      ∧ countGenCode (login ex env jar₀).2 = 0
      ∧ (postLoginDatas (login ex env jar₀).2).map (·.emailauth) =
          ["", env.emailCodes 0] := by
    simp only [login]
    rw [send_login_request_ok ex env _ _ h0]
    simp only [set_steamauth_loginIdx, initState_loginIdx, set_steamauth_otc,
      initState_otc, set_steamauth_ea, initState_ea, set_steamauth_keyIdx,
      initState_keyIdx, set_steamauth_codeIdx, initState_codeIdx,
      set_steamauth_emailIdx, initState_emailIdx, applyNet_keyIdx,
      applyNet_loginIdx, applyNet_codeIdx, applyNet_emailIdx, applyNet_otc,
      applyNet_ea]
    simp only [check_for_captcha, hcap, Bool.false_eq_true, if_false]
    simp only [enter_steam_guard_if_necessary, hfail, h2fa, hem,
      Bool.false_eq_true, if_false, if_true]
    rw [send_login_request_ok ex env _ (keyOf 1) ?hp]
    case hp => simpa using hkey 1
    simp [countPostLogin_append, countPostLogin_cons, countPostLogin_nil,
      countPostLogin_finish, countGenCode_append, countGenCode_cons,
      countGenCode_nil, countGenCode_finish, countEmailCb_append,
      countEmailCb_cons, countEmailCb_nil, countEmailCb_finish, isPostLogin,
      isGenCode, isEmailCb, postLoginDatas_append, postLoginDatas_cons_postKey,
      postLoginDatas_cons_postLogin, postLoginDatas_cons_emailCb,
      postLoginDatas_nil, postLoginDatas_finish, prepare_login_request_data]
  refine ⟨hmain.1, hmain.2.1, hmain.2.2.1, hmain.2.2.2, ?_⟩
  intro r s hrf hr2 hre
  constructor
  · simp only [enter_steam_guard_if_necessary, hrf, hr2, Bool.false_eq_true,
      if_false, if_true]
    simp [countEmailCb_cons, countEmailCb_nil, isEmailCb, (send_counts ex env _).1]
  · simp only [enter_steam_guard_if_necessary, hrf, hr2, Bool.false_eq_true,
      if_false, if_true]
    simp [countGenCode_cons, countGenCode_nil, isGenCode, (send_counts ex env _).2.1]

/-- C8 witness: the amended theorem at the concrete email-auth-then-success
environment. -/
theorem C8_email_auth_once_witness :
    countEmailCb (login exBase envEmailOnce []).2 = 1
    ∧ countPostLogin (login exBase envEmailOnce []).2 = 2
    ∧ countGenCode (login exBase envEmailOnce []).2 = 0
    ∧ (postLoginDatas (login exBase envEmailOnce []).2).map (·.emailauth) =
        ["", envEmailOnce.emailCodes 0] := by
  obtain ⟨h1, h2, h3, h4, -⟩ := C8_email_auth_once exBase envEmailOnce []
    (fun _ => ⟨⟨65537, 1⟩, "TS"⟩) (fun _ => rfl) rfl rfl rfl rfl
  exact ⟨h1, h2, h3, h4⟩

/-- C9: `_encrypt_password` produces exactly the base64 encoding of the
PKCS#1 v1.5 RSA encryption of the UTF-8 bytes of the password under the
fetched modulus and exponent (the spec-side formula), and the login POST of
`_send_login_request` carries precisely that value as its `password` field —
a pure function of the password, the fetched key, and the (explicit) padding
bytes, with no dependence on the session state. -/
theorem C9_encryption_matches_spec (password : String) (rsa_params : RsaParams)
    (ps : List Nat) (ex : Executor) (env : Env) (s : LoginState) (p : RsaParams)
    (hp : parseKeyResponse (env.keyResponses s.keyIdx) = .ok p) :
    encrypt_password password rsa_params ps =
      specEncryptedPassword password rsa_params.rsa_key.n rsa_params.rsa_key.e ps
    ∧ (postLoginDatas (send_login_request ex env s).2).map (·.password) =
        [specEncryptedPassword ex.password p.rsa_key.n p.rsa_key.e
          (env.padding s.loginIdx)] := by
  constructor
  · rfl
  · rw [send_login_request_ok ex env s p hp]
    simp [postLoginDatas_append, postLoginDatas_cons_postKey,
      postLoginDatas_cons_postLogin, postLoginDatas_nil,
      prepare_login_request_data]
    rfl

/-- C9 witness: the theorem at a concrete password, key and environment. -/
theorem C9_encryption_matches_spec_witness :
    encrypt_password "p" ⟨⟨65537, 1⟩, "TS"⟩ [] =
      specEncryptedPassword "p" 65537 1 []
    ∧ (postLoginDatas (send_login_request exBase envBase (initState [])).2).map
        (·.password) =
      [specEncryptedPassword exBase.password 65537 1
        (envBase.padding (initState []).loginIdx)] :=
  C9_encryption_matches_spec "p" ⟨⟨65537, 1⟩, "TS"⟩ [] exBase envBase
    (initState []) ⟨⟨65537, 1⟩, "TS"⟩ rfl

/-- C10: with a callable save callback, a successful final response lacking
`transfer_parameters` fails inside `_save_steam_auth` with the `KeyError` on
that field, before any redirect POST; and the redirect `Exception`
(RedirectError) is reachable only when no save callback is callable. -/
theorem C10_save_callback_preempts_redirect (ex : Executor) (env : Env)
    (jar₀ : List Cookie) (keyOf : Nat → RsaParams)
    (hkey : ∀ i, parseKeyResponse (env.keyResponses i) = .ok (keyOf i))
    (hsave : ex.hasSaveCallback = true)
    (hcap : (env.loginResponses 0).captcha_needed = false)
    (hsucc : (env.loginResponses 0).success = true)
    (hpar : (env.loginResponses 0).transfer_parameters = none) :
    (login ex env jar₀).1 = .error (.keyError "transfer_parameters")
    ∧ countPostTransfer (login ex env jar₀).2 = 0
    ∧ ∀ (ex' : Executor) (env' : Env) (jar' : List Cookie),
        (login ex' env' jar').1 = .error .redirectError →
        ex'.hasSaveCallback = false := by
  have h0 : parseKeyResponse
      (env.keyResponses (set_steamauth_cookies ex (initState jar₀)).keyIdx) =
      .ok (keyOf 0) := by simpa using hkey 0
  refine ⟨?_, ?_, ?_⟩
  · simp only [login]
    rw [send_login_request_ok ex env _ _ h0]
    simp only [set_steamauth_loginIdx, initState_loginIdx]
    simp only [check_for_captcha, hcap, Bool.false_eq_true, if_false]
    simp only [enter_steam_guard_if_necessary, hsucc, if_true]
    simp [finish_login, assert_valid_credentials, hsucc, save_steam_auth,
      hsave, hpar]
  · simp only [login]
    rw [send_login_request_ok ex env _ _ h0]
    simp only [set_steamauth_loginIdx, initState_loginIdx]
    simp only [check_for_captcha, hcap, Bool.false_eq_true, if_false]
    simp only [enter_steam_guard_if_necessary, hsucc, if_true]
    simp [finish_login, assert_valid_credentials, hsucc, save_steam_auth,
      hsave, hpar, countPostTransfer_append, countPostTransfer_cons,
      countPostTransfer_nil, isPostTransfer]
  · intro ex' env' jar' h
    simp only [login] at h
    split at h
    · rename_i e acts heq
      simp at h
      subst h
      rcases send_error_cases ex' env' _ _ (congrArg Prod.fst heq) with
        h1 | h1 | ⟨f, h1⟩ <;> simp at h1
    · split at h
      · rename_i e heq
        simp at h
        subst h
        have := check_for_captcha_error_cases _ _ heq
        simp at this
      · split at h
        · rename_i e acts₂ heq
          simp at h
          subst h
          rcases guard_error_cases ex' env' _ _ _ (congrArg Prod.fst heq) with
            h1 | h1 | ⟨f, h1⟩ <;> simp at h1
        · exact (finish_login_redirectError ex' env' _ _ h).1

/-- C10 witness: the theorem at the concrete no-parameters environment with a
callable save callback. -/
theorem C10_save_callback_preempts_redirect_witness :
    (login exSave envNoParams []).1 = .error (.keyError "transfer_parameters")
    ∧ countPostTransfer (login exSave envNoParams []).2 = 0 :=
  ⟨(C10_save_callback_preempts_redirect exSave envNoParams []
      (fun _ => ⟨⟨65537, 1⟩, "TS"⟩) (fun _ => rfl) rfl rfl rfl rfl).1,
   (C10_save_callback_preempts_redirect exSave envNoParams []
      (fun _ => ⟨⟨65537, 1⟩, "TS"⟩) (fun _ => rfl) rfl rfl rfl rfl).2.1⟩

end Steampy
